import Mathlib

/-!
# Verification of the AutoInsight tabular data engine

Shallow embedding of the core algorithms of the AutoInsight repository
(CSV profiling, statistics library, sales-AI query layer, drill-down and
quality reporting), together with theorems settling the frozen claims
about its natural-language specification.

Modelling conventions:
* JavaScript numbers are modelled by `JSVal`: an exact rational together
  with the IEEE special values `+Infinity`, `-Infinity` and `NaN`.
  Rounding of binary floating point is not modelled (all in-scope claims
  are about exact small decimal quantities or about NaN/Infinity
  propagation, where the rational semantics agrees with the float one);
  negative zero is not distinguished from zero.
* Host transcendental primitives (`Math.log`, `Math.exp`, `Math.sin`) are
  modelled only through their special-value behaviour (NaN/Infinity/domain
  errors); their finite positive values are replaced by fixed stub
  rationals.  No theorem below depends on those stub values: they are only
  ever combined with `NaN` in the claims under verification.
* `Math.sqrt` on non-negative rationals is modelled by `Rat.sqrt` (a
  computable approximation); again no theorem depends on its value at
  non-negative arguments, only on its NaN/negative-argument behaviour.
-/

/-- A JavaScript `number` as used by the source: a finite rational or one
of the special values `+Infinity`, `-Infinity`, `NaN`. -/
inductive JSVal where
  | fin (q : ℚ)
  | posInf
  | negInf
  | nan
deriving DecidableEq, Repr

namespace JSVal

/-- JS addition (`+`) on numbers, with IEEE special-value rules. -/
def add : JSVal → JSVal → JSVal
  | nan, _ => nan
  | _, nan => nan
  | posInf, negInf => nan
  | negInf, posInf => nan
  | posInf, _ => posInf
  | _, posInf => posInf
  | negInf, _ => negInf
  | _, negInf => negInf
  | fin a, fin b => fin (a + b)

/-- JS unary minus. -/
def neg : JSVal → JSVal
  | nan => nan
  | posInf => negInf
  | negInf => posInf
  | fin a => fin (-a)

/-- JS subtraction (`-`). -/
def sub (a b : JSVal) : JSVal := add a (neg b)

/-- JS multiplication (`*`): `0 * Infinity = NaN`, signs propagate. -/
def mul : JSVal → JSVal → JSVal
  | nan, _ => nan
  | _, nan => nan
  | posInf, posInf => posInf
  | posInf, negInf => negInf
  | negInf, posInf => negInf
  | negInf, negInf => posInf
  | fin a, posInf => if a = 0 then nan else if 0 < a then posInf else negInf
  | fin a, negInf => if a = 0 then nan else if 0 < a then negInf else posInf
  | posInf, fin a => if a = 0 then nan else if 0 < a then posInf else negInf
  | negInf, fin a => if a = 0 then nan else if 0 < a then negInf else posInf
  | fin a, fin b => fin (a * b)

/-- JS division (`/`): `x/0` is a signed infinity for `x ≠ 0`, `0/0` is
`NaN`; negative zero is not modelled, so `x/0` takes the sign of `x`. -/
def div : JSVal → JSVal → JSVal
  | nan, _ => nan
  | _, nan => nan
  | posInf, posInf => nan
  | posInf, negInf => nan
  | negInf, posInf => nan
  | negInf, negInf => nan
  | posInf, fin b => if 0 ≤ b then posInf else negInf
  | negInf, fin b => if 0 ≤ b then negInf else posInf
  | fin _, posInf => fin 0
  | fin _, negInf => fin 0
  | fin a, fin b =>
      if b = 0 then (if a = 0 then nan else if 0 < a then posInf else negInf)
      else fin (a / b)

/-- JS `Math.abs`. -/
def abs : JSVal → JSVal
  | nan => nan
  | posInf => posInf
  | negInf => posInf
  | fin a => fin |a|

/-- JS `<` comparison as a boolean: any comparison with `NaN` is false. -/
def ltB : JSVal → JSVal → Bool
  | nan, _ => false
  | _, nan => false
  | fin a, fin b => a < b
  | fin _, posInf => true
  | fin _, negInf => false
  | posInf, posInf => false
  | posInf, fin _ => false
  | posInf, negInf => false
  | negInf, negInf => false
  | negInf, fin _ => true
  | negInf, posInf => true

/-- JS `>` comparison as a boolean. -/
def gtB (a b : JSVal) : Bool := ltB b a

/-- JS strict equality `===` on numbers: `NaN === x` is always false. -/
def eqB : JSVal → JSVal → Bool
  | nan, _ => false
  | _, nan => false
  | fin a, fin b => a = b
  | posInf, posInf => true
  | negInf, negInf => true
  | _, _ => false

/-- JS `Math.round`: rounds half toward `+Infinity`; fixed on specials. -/
def round : JSVal → JSVal
  | nan => nan
  | posInf => posInf
  | negInf => negInf
  | fin a => fin ((⌊a + 1/2⌋ : ℤ) : ℚ)

/-- JS `Math.max` of two numbers: `NaN` if either argument is `NaN`. -/
def maxV : JSVal → JSVal → JSVal
  | nan, _ => nan
  | _, nan => nan
  | posInf, _ => posInf
  | _, posInf => posInf
  | negInf, b => b
  | a, negInf => a
  | fin a, fin b => fin (max a b)

/-- JS `Math.min` of two numbers: `NaN` if either argument is `NaN`. -/
def minV : JSVal → JSVal → JSVal
  | nan, _ => nan
  | _, nan => nan
  | negInf, _ => negInf
  | _, negInf => negInf
  | posInf, b => b
  | a, posInf => a
  | fin a, fin b => fin (min a b)

/-- `Math.sqrt`, modelled exactly on specials and negatives; on
non-negative rationals the value is the computable approximation
`Rat.sqrt` (no theorem depends on it there). -/
def sqrtV : JSVal → JSVal
  | nan => nan
  | posInf => posInf
  | negInf => nan
  | fin a => if a < 0 then nan else fin (Rat.sqrt a)

/-- `Math.pow (·, 2)` as used by the source (`Math.pow(x, 2)`). -/
def pow2 (a : JSVal) : JSVal := mul a a

/-- `Math.log`, modelled exactly on specials and non-positive arguments;
the (irrational) value at positive rationals is stubbed by `0`. -/
def logV : JSVal → JSVal
  | nan => nan
  | posInf => posInf
  | negInf => nan
  | fin a => if a < 0 then nan else if a = 0 then negInf else fin 0

/-- `Math.exp`, modelled exactly on specials; the (irrational) value at
nonzero rationals is stubbed by `1` (the exact value at `0`). -/
def expV : JSVal → JSVal
  | nan => nan
  | posInf => posInf
  | negInf => fin 0
  | fin _ => fin 1

/-- `Math.sin`, modelled exactly on specials; the value at finite
arguments is stubbed by `0`. -/
def sinV : JSVal → JSVal
  | nan => nan
  | posInf => nan
  | negInf => nan
  | fin _ => fin 0

end JSVal

/-- The double value of the literal `Math.PI`, as an exact rational
stand-in (only ever consumed by the stubbed transcendental functions). -/
def mathPI : ℚ := 3141592653589793 / 1000000000000000

/-! ## Statistics library (`src/utils/statistics.ts`) -/

/-- `logGamma`'s main (Lanczos) branch, for arguments `x ≥ 0.5` (after
the reflection test).  Mirrors the `x -= 1` shift, the coefficient sum and
the closing formula of `logGamma` in `statistics.ts`. -/
def logGammaPos (x0 : JSVal) : JSVal :=
  let coeff : List ℚ :=
    [99999999999980993/100000000000000000,
     6765203681218851/10000000000000,
     -12591392167224028/10000000000000,
     77132342877765313/100000000000000,
     -17661502916214059/100000000000000,
     12507343278686905/1000000000000000,
     -13857109526572012/100000000000000000,
     99843695780195716/10000000000000000000000,
     15056327351493116/100000000000000000000000]
  let x := JSVal.sub x0 (JSVal.fin 1)
  let base := JSVal.add x (JSVal.fin (7 + 1/2))
  let sum :=
    (List.range 8).foldl
      (fun s i =>
        JSVal.add s (JSVal.div (JSVal.fin (coeff.getD (i + 1) 0)) (JSVal.add x (JSVal.fin (i + 1)))))
      (JSVal.fin (coeff.getD 0 0))
  JSVal.add
    (JSVal.add (JSVal.mul (JSVal.fin (1/2)) (JSVal.logV (JSVal.fin (2 * mathPI))))
      (JSVal.mul (JSVal.add x (JSVal.fin (1/2))) (JSVal.logV base)))
    (JSVal.add (JSVal.neg base) (JSVal.logV sum))

/-- `logGamma` from `statistics.ts`.  The source recurses via the
reflection formula `logGamma(1-x)` when `x < 0.5`; since `1-x > 0.5`
there, that recursive call always lands in the main branch, which we
inline as `logGammaPos`. -/
def logGamma (x : JSVal) : JSVal :=
  if JSVal.ltB x (JSVal.fin (1/2)) then
    JSVal.sub
      (JSVal.sub (JSVal.logV (JSVal.fin mathPI))
        (JSVal.logV (JSVal.sinV (JSVal.mul (JSVal.fin mathPI) x))))
      (logGammaPos (JSVal.sub (JSVal.fin 1) x))
  else
    logGammaPos x

/-- `logBeta` from `statistics.ts`. -/
def logBeta (a b : JSVal) : JSVal :=
  JSVal.sub (JSVal.add (logGamma a) (logGamma b)) (logGamma (JSVal.add a b))

/-- One pass of the continued-fraction loop body of `betaIncomplete`
(i ≥ 1), updating `(f, c, d)`. -/
def betaIncStep (a b x : JSVal) (m : ℕ) (st : JSVal × JSVal × JSVal) :
    JSVal × JSVal × JSVal :=
  let f := st.1
  let c := st.2.1
  let d := st.2.2
  let mQ : JSVal := JSVal.fin (m : ℚ)
  let x2term :=
    JSVal.div
      (JSVal.mul (JSVal.mul (JSVal.neg (JSVal.add a mQ)) (JSVal.add (JSVal.add a b) mQ)) x)
      (JSVal.mul (JSVal.add a (JSVal.add mQ mQ))
        (JSVal.add (JSVal.add a (JSVal.add mQ mQ)) (JSVal.fin 1)))
  let d1 := JSVal.add (JSVal.fin 1) (JSVal.mul x2term d)
  let d2 := if JSVal.eqB d1 (JSVal.fin 0) then JSVal.fin (1/10000000000)
            else JSVal.div (JSVal.fin 1) d1
  let numerator :=
    JSVal.div (JSVal.mul (JSVal.mul mQ (JSVal.sub b mQ)) x)
      (JSVal.mul (JSVal.sub (JSVal.add a (JSVal.add mQ mQ)) (JSVal.fin 1))
        (JSVal.add a (JSVal.add mQ mQ)))
  let c1 := JSVal.add (JSVal.fin 1) (JSVal.div numerator c)
  let c2 := if JSVal.eqB c1 (JSVal.fin 0) then JSVal.fin (1/10000000000)
            else JSVal.div (JSVal.fin 1) c1
  (JSVal.mul (JSVal.mul f c2) d2, c2, d2)

/-- The `for (let i = 0; i <= 100; i++)` loop of `betaIncomplete`,
including the `break` when `|c·d − 1| < 1e-8`.  `i = 0` only sets
`d = 1`, so with the initial `c = 1` the convergence test fires on the
very first iteration and the loop always exits with `f = 1`; we model the
loop faithfully nonetheless. -/
def betaIncLoop (a b x : JSVal) : ℕ → ℕ → (JSVal × JSVal × JSVal) → JSVal
  | 0, _, st => st.1
  | fuel + 1, i, st =>
      let st' := if i = 0 then (st.1, st.2.1, JSVal.fin 1) else betaIncStep a b x i st
      if JSVal.ltB (JSVal.abs (JSVal.sub (JSVal.mul st'.2.1 st'.2.2) (JSVal.fin 1)))
          (JSVal.fin (1/100000000)) then
        st'.1
      else
        betaIncLoop a b x fuel (i + 1) st'

/-- `betaIncomplete` from `statistics.ts`: regularized incomplete beta
function via the (immediately-converging, see `betaIncLoop`) continued
fraction, clamped to `[0, 1]`. -/
def betaIncomplete (a b x : JSVal) : JSVal :=
  if JSVal.eqB x (JSVal.fin 0) then JSVal.fin 0
  else if JSVal.eqB x (JSVal.fin 1) then JSVal.fin 1
  else
    let front :=
      JSVal.expV
        (JSVal.sub
          (JSVal.add (JSVal.mul a (JSVal.logV x))
            (JSVal.mul b (JSVal.logV (JSVal.sub (JSVal.fin 1) x))))
          (logBeta a b))
    let f := betaIncLoop a b x 101 0 (JSVal.fin 1, JSVal.fin 1, JSVal.fin 0)
    JSVal.minV (JSVal.fin 1) (JSVal.maxV (JSVal.fin 0) (JSVal.mul front f))

/-- `tCDF` from `statistics.ts`. -/
def tCDF (t df : JSVal) : JSVal :=
  let x := JSVal.div df (JSVal.add df (JSVal.mul t t))
  betaIncomplete (JSVal.div df (JSVal.fin 2)) (JSVal.fin (1/2)) x

/-- Result record of `tTest`. -/
structure TTestResult where
  tStatistic : JSVal
  pValue : JSVal
  degreesOfFreedom : ℚ
  effectSize : JSVal
  significant : Bool
  interpretation : String
deriving DecidableEq, Repr

/-- The "insufficient data" sentinel returned by `tTest` when either
group is empty. -/
def tTestSentinel : TTestResult :=
  { tStatistic := JSVal.fin 0
    pValue := JSVal.fin 1
    degreesOfFreedom := 0
    effectSize := JSVal.fin 0
    significant := false
    interpretation := "Insufficient data" }

/-- `tTest` from `statistics.ts`: independent two-sample t-test with
pooled variance and Cohen's d.  Sums and means over the input lists are
exact; divisions/square roots go through `JSVal`, so the `0/0` arising
from a singleton group's sample variance surfaces as `NaN` exactly as in
JavaScript. -/
def tTest (group1 group2 : List ℚ) : TTestResult :=
  if group1.length = 0 ∨ group2.length = 0 then tTestSentinel
  else
    let n1 : ℚ := group1.length
    let n2 : ℚ := group2.length
    let mean1 := JSVal.div (JSVal.fin group1.sum) (JSVal.fin n1)
    let mean2 := JSVal.div (JSVal.fin group2.sum) (JSVal.fin n2)
    let var1 :=
      JSVal.div
        (group1.foldl (fun s b => JSVal.add s (JSVal.pow2 (JSVal.sub (JSVal.fin b) mean1)))
          (JSVal.fin 0))
        (JSVal.fin (n1 - 1))
    let var2 :=
      JSVal.div
        (group2.foldl (fun s b => JSVal.add s (JSVal.pow2 (JSVal.sub (JSVal.fin b) mean2)))
          (JSVal.fin 0))
        (JSVal.fin (n2 - 1))
    let pooledVar :=
      JSVal.div
        (JSVal.add (JSVal.mul (JSVal.fin (n1 - 1)) var1) (JSVal.mul (JSVal.fin (n2 - 1)) var2))
        (JSVal.fin (n1 + n2 - 2))
    let standardError :=
      JSVal.sqrtV
        (JSVal.mul pooledVar
          (JSVal.add (JSVal.div (JSVal.fin 1) (JSVal.fin n1))
            (JSVal.div (JSVal.fin 1) (JSVal.fin n2))))
    let tStatistic := JSVal.div (JSVal.sub mean1 mean2) standardError
    let df : ℚ := n1 + n2 - 2
    let pValue :=
      JSVal.mul (JSVal.fin 2)
        (JSVal.sub (JSVal.fin 1) (tCDF (JSVal.abs tStatistic) (JSVal.fin df)))
    let pooledStd := JSVal.sqrtV pooledVar
    let effectSize := JSVal.div (JSVal.sub mean1 mean2) pooledStd
    let significant := JSVal.ltB pValue (JSVal.fin (1/20))
    let interpretation :=
      if ¬significant then "No significant difference (p > 0.05)"
      else if JSVal.ltB (JSVal.abs effectSize) (JSVal.fin (1/5)) then
        "Significant but negligible effect"
      else if JSVal.ltB (JSVal.abs effectSize) (JSVal.fin (1/2)) then
        "Significant small effect"
      else if JSVal.ltB (JSVal.abs effectSize) (JSVal.fin (4/5)) then
        "Significant medium effect"
      else "Significant large effect"
    { tStatistic := JSVal.div (JSVal.round (JSVal.mul tStatistic (JSVal.fin 100))) (JSVal.fin 100)
      pValue := JSVal.div (JSVal.round (JSVal.mul pValue (JSVal.fin 10000))) (JSVal.fin 10000)
      degreesOfFreedom := df
      effectSize := JSVal.div (JSVal.round (JSVal.mul effectSize (JSVal.fin 100))) (JSVal.fin 100)
      significant := significant
      interpretation := interpretation }

/-- `tValueFromDF` from `statistics.ts`.  The function body returns
`lookup[df.toString()]` unconditionally (the `df >= 30` normal
approximation and the final fallback are dead code, written after an
unreachable `return`), so an untabulated `df` yields `undefined`,
modelled here as `none`. -/
def tValueFromDF (df : ℕ) : Option ℚ :=
  if df = 1 then some (12706/1000)
  else if df = 2 then some (4303/1000)
  else if df = 3 then some (3182/1000)
  else if df = 4 then some (2776/1000)
  else if df = 5 then some (2571/1000)
  else if df = 10 then some (2228/1000)
  else if df = 20 then some (2086/1000)
  else if df = 30 then some (2042/1000)
  else none

/-- Numeric coercion of a possibly-`undefined` JS value: `undefined`
coerces to `NaN` in arithmetic. -/
def jsOfOpt : Option ℚ → JSVal
  | none => JSVal.nan
  | some q => JSVal.fin q

/-- Result record of `confidenceInterval`. -/
structure ConfidenceInterval where
  mean : JSVal
  lowerBound : JSVal
  upperBound : JSVal
  marginOfError : JSVal
  confidence : ℚ
deriving DecidableEq, Repr

/-- The critical value used by `confidenceInterval`:
`data.length > 30 ? 1.96 : tValueFromDF(data.length - 1)`. -/
def ciTValue (n : ℕ) : JSVal :=
  if n > 30 then JSVal.fin (196/100) else jsOfOpt (tValueFromDF (n - 1))

/-- `confidenceInterval` from `statistics.ts` (at the default
`confidence = 0.95`). -/
def confidenceInterval (data : List ℚ) : ConfidenceInterval :=
  if data.length < 2 then
    { mean := JSVal.fin 0, lowerBound := JSVal.fin 0, upperBound := JSVal.fin 0
      marginOfError := JSVal.fin 0, confidence := 95/100 }
  else
    let n : ℚ := data.length
    let mean := JSVal.div (JSVal.fin data.sum) (JSVal.fin n)
    let std :=
      JSVal.sqrtV
        (JSVal.div
          (data.foldl (fun s b => JSVal.add s (JSVal.pow2 (JSVal.sub (JSVal.fin b) mean)))
            (JSVal.fin 0))
          (JSVal.fin (n - 1)))
    let tValue := ciTValue data.length
    let marginOfError :=
      JSVal.mul tValue (JSVal.div std (JSVal.sqrtV (JSVal.fin n)))
    { mean := JSVal.div (JSVal.round (JSVal.mul mean (JSVal.fin 100))) (JSVal.fin 100)
      lowerBound :=
        JSVal.div (JSVal.round (JSVal.mul (JSVal.sub mean marginOfError) (JSVal.fin 100)))
          (JSVal.fin 100)
      upperBound :=
        JSVal.div (JSVal.round (JSVal.mul (JSVal.add mean marginOfError) (JSVal.fin 100)))
          (JSVal.fin 100)
      marginOfError :=
        JSVal.div (JSVal.round (JSVal.mul marginOfError (JSVal.fin 100))) (JSVal.fin 100)
      confidence := 95/100 }

/-! ## JavaScript string and number primitives

Character-level models of the host string operations used by the source
(`toLowerCase`, `trim`, regex replaces, `split`, `includes`, `indexOf`,
`slice`) restricted to the ASCII behaviour the data exercises, plus a
model of the `Number(...)` string-to-number coercion for decimal
literals. -/

/-- JS `\w` (ASCII word character: letter, digit or underscore). -/
def isWordChar (c : Char) : Bool := c.isAlphanum || c = '_'

/-- JS `\s` (whitespace), restricted to the ASCII whitespace the data
contains. -/
def isWs (c : Char) : Bool := c.isWhitespace

/-- `replace(/\s+/g, " ")` on a character list: each maximal whitespace
run becomes a single space.  The boolean tracks whether the previous
character was whitespace (i.e. the run already emitted its space). -/
def collapseWsChars : List Char → Bool → List Char
  | [], _ => []
  | c :: rest, prevWs =>
      if isWs c then
        if prevWs then collapseWsChars rest true
        else ' ' :: collapseWsChars rest true
      else c :: collapseWsChars rest false

/-- `replace(/\s+/g, " ")`. -/
def collapseWs (s : String) : String := ⟨collapseWsChars s.toList false⟩

/-- JS `String.prototype.trim` (ASCII whitespace). -/
def jsTrim (s : String) : String :=
  ⟨((s.toList.dropWhile isWs).reverse.dropWhile isWs).reverse⟩

/-- JS `String.prototype.toLowerCase` (ASCII). -/
def jsToLower (s : String) : String := ⟨s.toList.map Char.toLower⟩

/-- JS `String.prototype.split(sep)` for a non-empty separator
(matches `String.splitOn`'s behaviour, implemented structurally). -/
def jsSplitOnAux (s0 : Char) (srest : List Char) : ℕ → List Char → List Char → List String
  | 0, cs, acc => [⟨acc.reverse ++ cs⟩]
  | _ + 1, [], acc => [⟨acc.reverse⟩]
  | fuel + 1, c :: rest, acc =>
      if (s0 :: srest).isPrefixOf (c :: rest) then
        (⟨acc.reverse⟩ : String) :: jsSplitOnAux s0 srest fuel ((c :: rest).drop (s0 :: srest).length) []
      else jsSplitOnAux s0 srest fuel rest (c :: acc)

/-- JS `String.prototype.split(sep)` for a non-empty separator (each
recursion step of the scan consumes at least one character, so fuel
`cs.length` suffices and the fuel-exhausted fallback is unreachable). -/
def jsSplitOn (s sep : String) : List String :=
  match sep.toList with
  | [] => [s]
  | s0 :: srest => jsSplitOnAux s0 srest s.toList.length s.toList []

/-- `norm` from `salesAI.ts`: lowercase, trim, collapse whitespace. -/
def normStr (s : String) : String := collapseWs (jsTrim (jsToLower s))

/-- `stripPunct` from `salesAI.ts`: replace every non-word, non-space
character by a space, collapse whitespace, trim. -/
def stripPunct (s : String) : String :=
  jsTrim (collapseWs ⟨s.toList.map (fun c => if isWordChar c || isWs c then c else ' ')⟩)

/-- Whether `needle` occurs as a contiguous sublist of `hay`
(JS `String.prototype.includes`). -/
def listIncludes (needle : List Char) : List Char → Bool
  | [] => needle.isEmpty
  | c :: rest => needle.isPrefixOf (c :: rest) || listIncludes needle rest

/-- JS `String.prototype.includes`. -/
def strIncludes (s sub : String) : Bool := listIncludes sub.toList s.toList

/-- JS `String.prototype.indexOf`, as an optional index. -/
def listIndexOf (needle : List Char) : List Char → Option ℕ
  | [] => if needle.isEmpty then some 0 else none
  | c :: rest =>
      if needle.isPrefixOf (c :: rest) then some 0
      else (listIndexOf needle rest).map (· + 1)

/-- JS `String.prototype.indexOf` (`none` models `-1`). -/
def strIndexOf (s sub : String) : Option ℕ := listIndexOf sub.toList s.toList

/-- JS `String.prototype.slice(i)` for a non-negative index. -/
def strSlice (s : String) (i : ℕ) : String := ⟨s.toList.drop i⟩

/-- Digit run to a natural number. -/
def digitsToNat (ds : List Char) : ℕ := ds.foldl (fun n c => 10 * n + (c.toNat - '0'.toNat)) 0

/-- `Number.prototype.toLocaleString` for a natural count (en-US default:
thousands separated by commas). -/
def natGroupRev : List Char → List Char
  | a :: b :: c :: d :: rest => a :: b :: c :: ',' :: natGroupRev (d :: rest)
  | l => l

/-- `Number.prototype.toLocaleString` body: digits of `n`, reversed,
grouped in threes, reversed back. -/
def natToLocaleString (n : ℕ) : String :=
  ⟨(natGroupRev (Nat.repr n).toList.reverse).reverse⟩

/-- `String(n)` for a JS number held as an exact rational.  JavaScript
renders numbers in shortest decimal form; we use an injective rational
rendering instead (integer part exact; non-integers as `num/den`).  No
claim depends on the rendered text, only on its injectivity (equal
numbers render equally, distinct numbers distinctly). -/
def qToString (q : ℚ) : String :=
  if q.den = 1 then toString q.num else toString q.num ++ "/" ++ toString q.den

/-- Parse an unsigned decimal literal (digits, optional fraction,
optional exponent), requiring the whole input to be consumed. -/
def parseUnsignedDec (cs : List Char) : Option ℚ :=
  let intDs := cs.takeWhile Char.isDigit
  let rest₁ := cs.dropWhile Char.isDigit
  let parseExp : List Char → Option ℤ := fun l =>
    match l with
    | [] => some 0
    | 'e' :: t | 'E' :: t =>
        let (sgn, t') : ℤ × List Char :=
          match t with
          | '+' :: u => (1, u)
          | '-' :: u => (-1, u)
          | u => (1, u)
        let eds := t'.takeWhile Char.isDigit
        if eds.isEmpty ∨ ¬(t'.dropWhile Char.isDigit).isEmpty then none
        else some (sgn * digitsToNat eds)
    | _ => none
  match rest₁ with
  | '.' :: fracRest =>
      let fracDs := fracRest.takeWhile Char.isDigit
      let rest₂ := fracRest.dropWhile Char.isDigit
      if intDs.isEmpty ∧ fracDs.isEmpty then none
      else
        (parseExp rest₂).map (fun e =>
          ((digitsToNat intDs : ℚ) + (digitsToNat fracDs : ℚ) / (10 : ℚ) ^ fracDs.length) *
            (10 : ℚ) ^ e)
  | _ =>
      if intDs.isEmpty then none
      else (parseExp rest₁).map (fun e => (digitsToNat intDs : ℚ) * (10 : ℚ) ^ e)

/-- `Number(s)` when the result is a finite number, `none` when it is
`NaN` or an infinity.  Models the ECMAScript string-to-number coercion
for whitespace, signs and decimal literals (the claims exercise only
those); hex/octal/binary literal forms are out of scope and rejected. -/
def jsNumberFinite (s : String) : Option ℚ :=
  let t := jsTrim s
  if t = "" then some 0
  else
    match t.toList with
    | '+' :: cs => if cs = "Infinity".toList then none else parseUnsignedDec cs
    | '-' :: cs =>
        if cs = "Infinity".toList then none else (parseUnsignedDec cs).map Neg.neg
    | cs => if cs = "Infinity".toList then none else parseUnsignedDec cs

/-! ## Sales-AI query layer (`src/utils/salesAI.ts`) -/

/-- A cell value: `string | number | null | undefined`.  `undefined` is
conflated with `null` (every source path treats them identically:
`v === null || v === undefined`, `v ?? ""`, and both are absent from
type counts). -/
inductive Cell where
  | num (q : ℚ)
  | str (s : String)
  | null
deriving DecidableEq, Repr

/-- `DataRow = Record<string, string | number | null | undefined>`:
an insertion-ordered record, with at most one binding per key. -/
abbrev DataRow := List (String × Cell)

/-- JS property access `row[h]`: `none` models `undefined` (absent key). -/
def rowGet (r : DataRow) (h : String) : Option Cell :=
  (r.find? (fun p => p.1 = h)).map (·.2)

/-- `String(row[h] ?? "")`: the `?? ""` replaces `null`/`undefined` by
the empty string before stringification. -/
def cellToString : Option Cell → String
  | none => ""
  | some Cell.null => ""
  | some (Cell.num q) => qToString q
  | some (Cell.str s) => s

/-- `toNumberSafe` from `salesAI.ts`: `null`/`undefined`/blank → `null`;
otherwise strip `$` and `,` and convert, requiring a finite result. -/
def toNumberSafe (v : Option Cell) : Option ℚ :=
  match v with
  | none => none
  | some Cell.null => none
  | some c =>
      let s := jsTrim (cellToString (some c))
      if s = "" then none
      else jsNumberFinite ⟨s.toList.filter (fun ch => ch ≠ '$' ∧ ch ≠ ',')⟩

/-- Host `new Date(s)` validity (`toDateSafe`'s test).  The accepted
formats of the host date parser are implementation-defined; we model the
ISO `YYYY-MM-DD` form (the shape the engine's own canonicalizer emits).
No claim depends on this predicate. -/
def jsDateParses (s : String) : Bool :=
  match s.toList with
  | [y1, y2, y3, y4, '-', m1, m2, '-', d1, d2] =>
      [y1, y2, y3, y4, m1, m2, d1, d2].all Char.isDigit &&
        (1 ≤ digitsToNat [m1, m2] && digitsToNat [m1, m2] ≤ 12) &&
        (1 ≤ digitsToNat [d1, d2] && digitsToNat [d1, d2] ≤ 31)
  | _ => false

/-- `toDateSafe` from `salesAI.ts`, reduced to its success test. -/
def toDateSafeOk (v : Option Cell) : Bool :=
  match v with
  | none => false
  | some Cell.null => false
  | some c =>
      let s := jsTrim (cellToString (some c))
      if s = "" then false else jsDateParses s

/-- The semantic column roles of the synonym dictionary. -/
inductive ColumnKey where
  | customer | product | category | date | revenue | quantity | status | region
deriving DecidableEq, Repr

/-- `SYNONYMS` from `salesAI.ts`. -/
def SYNONYMS : ColumnKey → List String
  | ColumnKey.customer =>
      ["customer", "customer name", "client", "client name", "buyer", "name", "customername"]
  | ColumnKey.product => ["product", "item", "item name", "sku", "product name"]
  | ColumnKey.category => ["category", "product category", "segment", "type"]
  | ColumnKey.date =>
      ["date", "order date", "orderdate", "invoice date", "transaction date", "sales date"]
  | ColumnKey.revenue =>
      ["revenue", "sales", "amount", "total", "total amount", "price", "sale amount"]
  | ColumnKey.quantity => ["quantity", "qty", "units", "unit sold", "items"]
  | ColumnKey.status => ["status", "state"]
  | ColumnKey.region => ["region", "area", "location", "country", "city"]

/-- `buildHeaderMap(headers).get(key)`: the map is keyed by normalized
header, later insertions overwriting earlier ones, so lookup returns the
last header with the given normalized form. -/
def headerMapGet (headers : List String) (key : String) : Option String :=
  headers.reverse.find? (fun h => normStr h = key)

/-- `resolveColumn` from `salesAI.ts`: exact normalized synonym match
first, then substring containment fallback. -/
def resolveColumn (headers : List String) (key : ColumnKey) : Option String :=
  match (SYNONYMS key).findSome? (fun syn => headerMapGet headers (normStr syn)) with
  | some h => some h
  | none =>
      (SYNONYMS key).findSome? (fun syn => headers.find? (fun h => strIncludes (normStr h) (normStr syn)))

/-- Word-boundary test used when modelling `\b`: the position between a
word character and a non-word character (or an end of the string). -/
def boundaryAfterWord : List Char → Bool
  | [] => true
  | c :: _ => !isWordChar c

/-- `detectTopN` from `salesAI.ts`: first match of `/\btop\s+(\d+)\b/i`
against the question; `none` unless the captured number is positive.
The scan is over the lowercased text (the pattern is case-insensitive
and matches only letters and digits). -/
def detectTopNChars : List Char → Bool → Option ℕ
  | [], _ => none
  | c :: rest, atBoundary =>
      let tryHere :=
        if atBoundary ∧ (c :: rest).take 3 = ['t', 'o', 'p'] then
          let afterTop := (c :: rest).drop 3
          let wsRun := afterTop.takeWhile isWs
          let afterWs := afterTop.dropWhile isWs
          let ds := afterWs.takeWhile Char.isDigit
          if wsRun ≠ [] ∧ ds ≠ [] ∧ boundaryAfterWord (afterWs.dropWhile Char.isDigit) then
            some (digitsToNat ds)
          else none
        else none
      match tryHere with
      | some n => some n
      | none => detectTopNChars rest (!isWordChar c)

/-- `detectTopN` from `salesAI.ts`. -/
def detectTopN (q : String) : Option ℕ :=
  match detectTopNChars (jsToLower q).toList true with
  | some n => if 0 < n then some n else none
  | none => none

/-- `parseNameCount` from `salesAI.ts`: first match of
`/^how many\s+['"]?([a-z]+)['"]?\b/i` against the (already lowercased)
question, then the blocked-word filter.  The optional trailing quote and
the `\b` interact exactly as in the regex: after a bare letter run the
boundary needs a non-word (or end) next, and a trailing quote is itself
a non-word character, so the boundary holds whenever the character after
the letters is not a word character. -/
def parseNameCount (q : String) : Option String :=
  let cs := q.toList
  if cs.take 8 = "how many".toList then
    let afterHM := cs.drop 8
    let wsRun := afterHM.takeWhile isWs
    let afterWs := afterHM.dropWhile isWs
    let afterQuote :=
      match afterWs with
      | '\'' :: t => t
      | '"' :: t => t
      | t => t
    let letters := afterQuote.takeWhile (fun c => 'a' ≤ c ∧ c ≤ 'z')
    let rest := afterQuote.dropWhile (fun c => 'a' ≤ c ∧ c ≤ 'z')
    if wsRun ≠ [] ∧ letters ≠ [] ∧ boundaryAfterWord rest then
      let candidate : String := ⟨letters⟩
      let blocked := ["rows", "row", "columns", "column", "records", "entries", "duplicates"]
      if blocked.contains candidate then none else some candidate
    else none
  else none

/-- A parsed `where`-clause filter. -/
structure QFilter where
  column : String
  op : Bool  -- `true` models `"eq"`, `false` models `"contains"`
  value : String
deriving DecidableEq, Repr

/-- Rendering of the filter operator (`"eq"` / `"contains"`). -/
def QFilter.opName (f : QFilter) : String := if f.op then "eq" else "contains"

/-- `bestHeaderMatch` from `salesAI.ts`. -/
def bestHeaderMatch (headers : List String) (raw : String) : Option String :=
  let r := normStr raw
  match headers.find? (fun h => normStr h = r) with
  | some h => some h
  | none => headers.find? (fun h => strIncludes (normStr h) r)

/-- Split `clause` at the first position matching
`^(.+?)\s+SEP\s+(.+)$` for the separator word `sep` (compared
lowercased): returns the text before the separator and the text after
it.  The lazy left group makes the match the leftmost one; since both
captured parts are then trimmed by the caller, the greedy/backtracking
behaviour of the inner `\s+` never changes the outcome, so it is enough
to require a whitespace run, the separator word, one more whitespace and
at least one further character. -/
def splitOnSep (sep : List Char) : List Char → Option (List Char × List Char)
  | [] => none
  | c :: rest =>
      let tailMatch : Option (List Char) :=
        let wsRun := rest.takeWhile isWs
        let afterWs := rest.dropWhile isWs
        if wsRun ≠ [] ∧ (afterWs.take sep.length).map Char.toLower = sep then
          let after := afterWs.drop sep.length
          match after with
          | a :: _ :: _ => if isWs a then some after else none
          | _ => none
        else none
      match tailMatch with
      | some after => some ([c], after)
      | none =>
          match splitOnSep sep rest with
          | some (left, after) => some (c :: left, after)
          | none => none

/-- `parseFilters` from `salesAI.ts`. -/
def parseFilters (q : String) (headers : List String) : List QFilter :=
  match strIndexOf (jsToLower q) "where " with
  | none => []
  | some whereIdx =>
      let clause := jsTrim (strSlice q (whereIdx + 6))
      match splitOnSep "contains".toList clause.toList with
      | some (left, after) =>
          let value := stripPunct (jsTrim ⟨after⟩)
          match bestHeaderMatch headers (jsTrim ⟨left⟩) with
          | some col => if value ≠ "" then [{ column := col, op := false, value := value }] else []
          | none => []
      | none =>
          let eqSplit :=
            match splitOnSep "is".toList clause.toList with
            | some r => some r
            | none => splitOnSep "=".toList clause.toList
          match eqSplit with
          | some (left, after) =>
              let value := stripPunct (jsTrim ⟨after⟩)
              match bestHeaderMatch headers (jsTrim ⟨left⟩) with
              | some col => if value ≠ "" then [{ column := col, op := true, value := value }] else []
              | none => []
          | none => []

/-- `applyFilters` from `salesAI.ts`: conjunction of all filters, each
comparing the punctuation-stripped, lowercased cell against the
punctuation-stripped, lowercased filter value. -/
def applyFilters (rows : List DataRow) (filters : List QFilter) : List DataRow :=
  if filters.isEmpty then rows
  else
    rows.filter (fun row =>
      filters.all (fun f =>
        let cell := jsToLower (stripPunct (cellToString (rowGet row f.column)))
        let target := jsToLower (stripPunct f.value)
        if f.op then cell = target else strIncludes cell target))

/-- One `Map.set(key, (get(key) ?? 0) + 1)` step on an insertion-ordered
counting map: update in place if present, append otherwise. -/
def bumpCount {α : Type} [DecidableEq α] (m : List (α × ℕ)) (a : α) : List (α × ℕ) :=
  if m.any (fun p => p.1 = a) then
    m.map (fun p => if p.1 = a then (p.1, p.2 + 1) else p)
  else m ++ [(a, 1)]

/-- The occurrence-counting `Map` of the duplicate detectors, as an
insertion-ordered association list. -/
def countsList {α : Type} [DecidableEq α] (l : List α) : List (α × ℕ) :=
  l.foldl bumpCount []

/-- `buildRowSignature` from `salesAI.ts`: trimmed stringified cells
joined by `"||"`. -/
def buildRowSignature (row : DataRow) (headers : List String) : String :=
  String.intercalate "||" (headers.map (fun h => jsTrim (cellToString (rowGet row h))))

/-- Result of `findDuplicateStats`. -/
structure DupStats where
  duplicateRowCount : ℕ
  dupSigs : List (String × ℕ)
deriving DecidableEq, Repr

/-- `findDuplicateStats` from `salesAI.ts`. -/
def findDuplicateStats (rows : List DataRow) (headers : List String) : DupStats :=
  let counts := countsList (rows.map (fun r => buildRowSignature r headers))
  let dupSigs := counts.filter (fun p => 1 < p.2)
  { duplicateRowCount := dupSigs.foldl (fun sum p => sum + (p.2 - 1)) 0
    dupSigs := dupSigs }

/-- Test used in `dataQualitySummary`'s missing-count:
`v === null || v === undefined || String(v ?? "").trim() === ""`. -/
def cellMissing (v : Option Cell) : Bool :=
  match v with
  | none => true
  | some Cell.null => true
  | some c => jsTrim (cellToString (some c)) = ""

/-- Result of `dataQualitySummary`. -/
structure QualitySummary where
  totalCells : ℕ
  missing : ℕ
  invalidNumbers : ℕ
  invalidDates : ℕ
  duplicateRowCount : ℕ
  qualityScore : ℚ
deriving DecidableEq, Repr

/-- `dataQualitySummary` from `salesAI.ts`. -/
def dataQualitySummary (rows : List DataRow) (headers : List String) : QualitySummary :=
  let totalCells := rows.length * headers.length
  let numCandidates :=
    (resolveColumn headers ColumnKey.revenue).toList ++
      (resolveColumn headers ColumnKey.quantity).toList
  let dateCandidates := (resolveColumn headers ColumnKey.date).toList
  let cellCount := fun (bad : String → Option Cell → Bool) =>
    rows.foldl (fun acc row =>
      acc + (headers.filter (fun h => bad h (rowGet row h))).length) 0
  let missing := cellCount (fun _ v => cellMissing v)
  let nonBlank := fun (v : Option Cell) => jsTrim (cellToString v) ≠ ""
  let invalidNumbers := cellCount (fun h v =>
    numCandidates.contains h && nonBlank v && (toNumberSafe v).isNone)
  let invalidDates := cellCount (fun h v =>
    dateCandidates.contains h && nonBlank v && !(toDateSafeOk v))
  let dup := (findDuplicateStats rows headers).duplicateRowCount
  let issueCount := missing + invalidNumbers + invalidDates + dup
  { totalCells := totalCells
    missing := missing
    invalidNumbers := invalidNumbers
    invalidDates := invalidDates
    duplicateRowCount := dup
    qualityScore :=
      if totalCells = 0 then 100
      else max 0 (100 - ((issueCount : ℚ) / (totalCells : ℚ)) * 100) }

/-- `countNameInColumn` from `salesAI.ts`: counts rows whose
punctuation-stripped, lowercased cell contains the (likewise normalized)
name as an exact space-delimited token; blank cells are skipped. -/
def countNameInColumn (rows : List DataRow) (col : String) (name : String) : ℕ :=
  let target := jsToLower (stripPunct name)
  rows.foldl (fun count r =>
    let cell := jsToLower (stripPunct (cellToString (rowGet r col)))
    if cell = "" then count
    else if (jsSplitOn cell " ").contains target then count + 1
    else count) 0

/-- One `Map.set(key, (get(key) ?? 0) + n)` step on an insertion-ordered
summing map. -/
def bumpSum (m : List (String × ℚ)) (key : String) (n : ℚ) : List (String × ℚ) :=
  if m.any (fun p => p.1 = key) then
    m.map (fun p => if p.1 = key then (p.1, p.2 + n) else p)
  else m ++ [(key, n)]

/-- `topValues` from `salesAI.ts`: frequency table (insertion order),
sorted descending by count (stably, as `Array.prototype.sort`), first
`topN` entries. -/
def topValues (rows : List DataRow) (col : String) (topN : ℕ) : List (String × ℕ) :=
  let freq := rows.foldl (fun m r =>
    let v := jsTrim (stripPunct (cellToString (rowGet r col)))
    if v = "" then m else bumpCount m (jsToLower v)) ([] : List (String × ℕ))
  (freq.insertionSort (fun a b => b.2 ≤ a.2)).take topN

/-- `sumColumn` from `salesAI.ts`: exact running sum, with counts of
used and skipped (non-numeric) rows. -/
def sumColumn (rows : List DataRow) (col : String) : ℚ × ℕ × ℕ :=
  rows.foldl (fun acc r =>
    match toNumberSafe (rowGet r col) with
    | none => (acc.1, acc.2.1, acc.2.2 + 1)
    | some n => (acc.1 + n, acc.2.1 + 1, acc.2.2)) (0, 0, 0)

/-- `groupSum` from `salesAI.ts`: per-group sums (insertion order),
sorted descending by value (stably), first `topN`, plus the count of
rows skipped for a non-numeric metric. -/
def groupSum (rows : List DataRow) (groupCol metricCol : String) (topN : ℕ) :
    List (String × ℚ) × ℕ :=
  let step := fun (acc : List (String × ℚ) × ℕ) (r : DataRow) =>
    let g := jsTrim (stripPunct (cellToString (rowGet r groupCol)))
    if g = "" then acc
    else
      match toNumberSafe (rowGet r metricCol) with
      | none => (acc.1, acc.2 + 1)
      | some n => (bumpSum acc.1 (jsToLower g) n, acc.2)
  let res := rows.foldl step ([], 0)
  ((res.1.insertionSort (fun a b => b.2 ≤ a.2)).take topN, res.2)

/-- The closed intent taxonomy of the query planner. -/
inductive Intent where
  | COUNT_NAME | COUNT_ROWS | COUNT_DUPLICATES | LIST_DUPLICATES
  | QUALITY_SUMMARY | WHY_RAW | TOP_VALUES | GROUP_SUM | SUM | UNKNOWN
deriving DecidableEq, Repr

/-- A resolved query plan. -/
structure QueryPlan where
  intent : Intent
  nameQuery : Option String := none
  column : Option String := none
  metricColumn : Option String := none
  groupByColumn : Option String := none
  topN : Option ℕ := none
  filters : List QFilter := []
deriving DecidableEq, Repr

/-- `parseQuestionToPlan` from `salesAI.ts`: ordered keyword checks over
the lowercased, trimmed question; first match wins. -/
def parseQuestionToPlan (question : String) (headers : List String) : QueryPlan :=
  let q := jsTrim question
  let lower := jsToLower q
  let filters := parseFilters q headers
  let inc := fun (s : String) => strIncludes lower s
  if inc "why" ∧ (inc "raw" ∨ inc "dirty" ∨ inc "unclean") then
    { intent := Intent.WHY_RAW, filters := filters }
  else if inc "quality" ∨ inc "dirty" ∨ inc "issues" ∨ inc "problem" then
    { intent := Intent.QUALITY_SUMMARY, filters := filters }
  else if inc "duplicate" then
    if inc "list" ∨ inc "show" then { intent := Intent.LIST_DUPLICATES, filters := filters }
    else { intent := Intent.COUNT_DUPLICATES, filters := filters }
  else if inc "how many" ∧ (inc "rows" ∨ inc "records" ∨ inc "entries") then
    { intent := Intent.COUNT_ROWS, filters := filters }
  else
    match parseNameCount lower with
    | some name => { intent := Intent.COUNT_NAME, nameQuery := some name, filters := filters }
    | none =>
        let topN := (detectTopN q).getD 5
        if inc "top" ∧ (inc "customer" ∨ inc "product" ∨ inc "category") then
          let key :=
            if inc "category" then ColumnKey.category
            else if inc "product" then ColumnKey.product
            else ColumnKey.customer
          { intent := Intent.TOP_VALUES, column := resolveColumn headers key,
            topN := some topN, filters := filters }
        else if (inc "by category" ∨ inc "by product" ∨ inc "by customer") ∧
            (inc "sales" ∨ inc "revenue" ∨ inc "amount" ∨ inc "total") then
          let groupKey :=
            if inc "by customer" then ColumnKey.customer
            else if inc "by product" then ColumnKey.product
            else ColumnKey.category
          { intent := Intent.GROUP_SUM, metricColumn := resolveColumn headers ColumnKey.revenue,
            groupByColumn := resolveColumn headers groupKey, topN := some topN,
            filters := filters }
        else if inc "total" ∧ (inc "revenue" ∨ inc "sales" ∨ inc "amount") then
          { intent := Intent.SUM, metricColumn := resolveColumn headers ColumnKey.revenue,
            filters := filters }
        else { intent := Intent.UNKNOWN, filters := filters }

/-- `Number.prototype.toFixed(d)` on an exact rational: fixed-decimal
rendering with round-half-up on the magnitude (the binary-double rounding
of the host is not modelled; the rendered text is only ever embedded in
answer prose that no claim inspects digit-by-digit). -/
def ratToFixed (d : ℕ) (q : ℚ) : String :=
  let scaled : ℤ := ⌊|q| * (10 : ℚ) ^ d + 1/2⌋
  let ip := scaled / (10 : ℤ) ^ d
  let fp := (scaled % (10 : ℤ) ^ d).toNat
  let fpDigits := Nat.repr fp
  let fpStr : String := ⟨List.replicate (d - fpDigits.length) '0'⟩ ++ fpDigits
  (if q < 0 ∧ scaled ≠ 0 then "-" else "") ++ Nat.repr ip.toNat ++
    (if d = 0 then "" else "." ++ fpStr)

/-- Answer confidence levels. -/
inductive Confidence where
  | high | medium | low
deriving DecidableEq, Repr

/-- An answer of the query layer: text, confidence, and the `how[]`
explainability trail. -/
structure Answer where
  text : String
  confidence : Confidence
  how : List String
deriving DecidableEq, Repr

/-- The filters entry pushed onto `how[]`: either the list of applied
filters or the statement that none were applied. -/
def filtersAppliedLine (filters : List QFilter) : String :=
  if filters.isEmpty then "No filters applied."
  else
    "Filters applied: " ++
      String.intercalate ", "
        (filters.map (fun f => f.column ++ " " ++ f.opName ++ " \"" ++ f.value ++ "\""))

/-- The rows-considered entry pushed onto `how[]`. -/
def rowsConsideredLine (filteredCount totalCount : ℕ) : String :=
  "Rows considered: " ++ natToLocaleString filteredCount ++
    " (out of " ++ natToLocaleString totalCount ++ ")"

/-- The fixed answer text of the `WHY_RAW` intent. -/
def whyRawText : String :=
  "Raw (dirty) data usually means it hasn’t been prepared for analysis. Common reasons:\n" ++
  "• Missing values (incomplete records)\n" ++
  "• Invalid formats (text where numbers/dates should be)\n" ++
  "• Duplicate rows (double-counting sales)\n" ++
  "• Inconsistent categories/names (e.g., “Electronics” vs “electronics”)\n\n" ++
  "AutoInsight helps by detecting these issues and cleaning them so results are reliable."

/-- The fixed answer text of the `UNKNOWN` fallback intent. -/
def unknownText : String :=
  "I didn’t fully understand that question yet.\n\nTry one of these:\n" ++
  "• “Explain the data quality”\n" ++
  "• “How many rows are there?”\n" ++
  "• “How many Mike are there?”\n" ++
  "• “How many duplicates?”\n" ++
  "• “Total revenue”\n" ++
  "• “Sales by category”\n" ++
  "• “Top 5 customers”"

/-- `answerSalesQuestion` from `salesAI.ts`: the full
classify → resolve → filter → compute → format pipeline. -/
def answerSalesQuestion (question : String) (rows : List DataRow)
    (headers : List String) : Answer :=
  if rows.isEmpty ∨ headers.isEmpty then
    { text := "I don’t have any rows to analyze yet. Upload a CSV first."
      confidence := Confidence.low
      how := [] }
  else
    let plan := parseQuestionToPlan question headers
    let filteredRows := applyFilters rows plan.filters
    let how : List String :=
      [filtersAppliedLine plan.filters, rowsConsideredLine filteredRows.length rows.length]
    match plan.intent with
    | Intent.COUNT_ROWS =>
        { text := "You have **" ++ natToLocaleString filteredRows.length ++
            " rows** in this dataset (after any filters)."
          confidence := Confidence.high
          how := how }
    | Intent.COUNT_NAME =>
        match resolveColumn headers ColumnKey.customer with
        | none =>
            { text := "I can count names, but I couldn’t find a “Customer Name” column. Try asking with a column like: \"how many mike where Name contains mike\"."
              confidence := Confidence.medium
              how := how ++ ["Customer column not found via synonyms."] }
        | some customerCol =>
            let name := plan.nameQuery.getD ""
            let c := countNameInColumn filteredRows customerCol name
            { text := "There are **" ++ Nat.repr c ++ "** rows where **" ++ customerCol ++
                "** contains the name **\"" ++ name ++ "\"**."
              confidence := Confidence.high
              how := how ++ ["Counted token matches in column: " ++ customerCol] }
    | Intent.COUNT_DUPLICATES =>
        let stats := findDuplicateStats filteredRows headers
        { text := "Found **" ++ Nat.repr stats.duplicateRowCount ++
            " duplicate rows** (extra copies beyond the first)."
          confidence := Confidence.high
          how := how ++ ["Duplicates detected by matching entire-row signatures across all columns."] }
    | Intent.LIST_DUPLICATES =>
        let stats := findDuplicateStats filteredRows headers
        if stats.dupSigs.isEmpty then
          { text := "✅ No duplicate rows found.", confidence := Confidence.high, how := how }
        else
          let preview := String.intercalate "\n"
            ((stats.dupSigs.take 3).enum.map (fun p =>
              let parts := jsSplitOn p.2.1 "||"
              let shown := String.intercalate ", "
                ((headers.take (min 4 headers.length)).enum.map (fun hq =>
                  hq.2 ++ ": " ++ parts.getD hq.1 ""))
              Nat.repr (p.1 + 1) ++ ") " ++ shown ++ " (appears " ++ Nat.repr p.2.2 ++ " times)"))
          { text := "Here are example duplicates (showing up to 3 groups):\n" ++ preview ++
              "\n\nTip: If you want, I can list duplicates based on a specific key like Customer+Date."
            confidence := Confidence.medium
            how := how ++ ["Preview shows a subset to keep the chat readable."] }
    | Intent.QUALITY_SUMMARY =>
        let qs := dataQualitySummary filteredRows headers
        let assessment :=
          if 95 ≤ qs.qualityScore then "Excellent (very clean)"
          else if 85 ≤ qs.qualityScore then "Good (minor issues)"
          else if 70 ≤ qs.qualityScore then "Fair (needs cleaning)"
          else "Poor (significant issues)"
        { text := "📋 **Data Quality Summary**\n" ++
            "Quality Score: **" ++ ratToFixed 1 qs.qualityScore ++ "%** (" ++ assessment ++ ")\n\n" ++
            "Issues detected:\n" ++
            "• Missing cells: " ++ Nat.repr qs.missing ++ "\n" ++
            "• Invalid numbers: " ++ Nat.repr qs.invalidNumbers ++ "\n" ++
            "• Invalid dates: " ++ Nat.repr qs.invalidDates ++ "\n" ++
            "• Duplicate rows: " ++ Nat.repr qs.duplicateRowCount ++ "\n\n" ++
            "If you want, ask: “show dirty rows” and I’ll give examples."
          confidence := Confidence.high
          how := how ++ ["Score is based on issue density across all cells (missing + invalid + duplicates)."] }
    | Intent.WHY_RAW =>
        { text := whyRawText, confidence := Confidence.high, how := how }
    | Intent.TOP_VALUES =>
        match plan.column with
        | none =>
            { text := "I can do “top” lists, but I couldn’t identify which column you meant. Try: “top 5 customers” or “top 5 products”."
              confidence := Confidence.medium, how := how }
        | some col =>
            let topN := plan.topN.getD 5
            let tops := topValues filteredRows col topN
            if tops.isEmpty then
              { text := "No values found in column \"" ++ col ++ "\"."
                confidence := Confidence.medium, how := how }
            else
              { text := "Top " ++ Nat.repr topN ++ " values in **" ++ col ++ "**:\n" ++
                  String.intercalate "\n" (tops.enum.map (fun t =>
                    Nat.repr (t.1 + 1) ++ ". " ++ t.2.1 ++ " (" ++ Nat.repr t.2.2 ++ ")"))
                confidence := Confidence.high
                how := how ++ ["Computed frequency counts for column: " ++ col] }
    | Intent.SUM =>
        match plan.metricColumn with
        | none =>
            { text := "I can calculate totals, but I couldn’t find a revenue/sales column. Try using the exact column name (e.g., “total Amount”)."
              confidence := Confidence.medium, how := how }
        | some metric =>
            let res := sumColumn filteredRows metric
            { text := "Total **" ++ metric ++ "** = **" ++ ratToFixed 2 res.1 ++ "**\n" ++
                "(" ++ Nat.repr res.2.1 ++ " rows used, " ++ Nat.repr res.2.2 ++
                " skipped due to missing/invalid values)"
              confidence := Confidence.high
              how := how ++ ["Summed numeric values from column: " ++ metric] }
    | Intent.GROUP_SUM =>
        match plan.groupByColumn, plan.metricColumn with
        | some groupCol, some metricCol =>
            let topN := plan.topN.getD 5
            let result := groupSum filteredRows groupCol metricCol topN
            if result.1.isEmpty then
              { text := "No grouped results found for \"" ++ groupCol ++ "\"."
                confidence := Confidence.medium, how := how }
            else
              { text := "Top " ++ Nat.repr topN ++ " **" ++ groupCol ++ "** by **" ++ metricCol ++
                  "**:\n" ++
                  String.intercalate "\n" (result.1.enum.map (fun r =>
                    Nat.repr (r.1 + 1) ++ ". " ++ r.2.1 ++ " — " ++ ratToFixed 2 r.2.2)) ++
                  (if 0 < result.2 then
                    "\n\n(" ++ Nat.repr result.2 ++ " rows skipped due to invalid/missing " ++
                      metricCol ++ ")"
                  else "")
                confidence := Confidence.high
                how := how ++ ["Grouped by " ++ groupCol ++ " and summed " ++ metricCol ++ "."] }
        | g, m =>
            { text := "I can do “sales by category/product/customer”, but I couldn’t find the needed columns. Try using the exact column names."
              confidence := Confidence.medium
              how := how ++ ["groupBy=" ++ g.getD "missing" ++ ", metric=" ++ m.getD "missing"] }
    | Intent.UNKNOWN =>
        { text := unknownText, confidence := Confidence.low, how := how }

/-! ## CSV profiler (`src/components/SummaryScreen.tsx`) -/

/-- `isEmpty` from `SummaryScreen.tsx` on a (string) cell: blank after
trimming, or a case-insensitive `null`/`nan`/`none` marker. -/
def isEmptySS (v : String) : Bool :=
  let s := jsTrim v
  s = "" || jsToLower s = "null" || jsToLower s = "nan" || jsToLower s = "none"

/-- `tryParseNumber` from `SummaryScreen.tsx`: empty values are `ok`
with no value; otherwise strip commas (only commas — not `$`) from the
trimmed text and convert, succeeding iff the result is finite.
Returns `(ok, value)`. -/
def tryParseNumber (v : String) : Bool × Option ℚ :=
  if isEmptySS v then (true, none)
  else
    let raw : String := ⟨(jsTrim v).toList.filter (fun c => c ≠ ',')⟩
    match jsNumberFinite raw with
    | some n => (true, some n)
    | none => (false, none)

/-- `tryParseDate` from `SummaryScreen.tsx`, reduced to its success
test (the canonicalized `YYYY-MM-DD` output is not needed by any
claim). -/
def tryParseDateOk (v : String) : Bool :=
  if isEmptySS v then true else jsDateParses (jsTrim v)

/-- The inferred column types. -/
inductive ColumnType where
  | number | date | string
deriving DecidableEq, Repr

/-- `inferType` from `SummaryScreen.tsx`: sample the first 40 non-empty
values; `number` if at least 85% of the sample parses numerically, else
`date` if at least 85% parses as dates and under half parses
numerically, else `string`.  The ratios are exact rationals (the float
divisions of the source agree with the rational comparisons at every
reachable sample size). -/
def inferType (values : List String) : ColumnType :=
  let sample := (values.filter (fun v => !isEmptySS v)).take 40
  if sample.isEmpty then ColumnType.string
  else
    let numOk := (sample.filter (fun v => (tryParseNumber v).1)).length
    let dateOk := (sample.filter (fun v => tryParseDateOk v)).length
    let numRatio : ℚ := (numOk : ℚ) / (sample.length : ℚ)
    let dateRatio : ℚ := (dateOk : ℚ) / (sample.length : ℚ)
    if 17/20 ≤ numRatio then ColumnType.number
    else if 17/20 ≤ dateRatio ∧ numRatio < 1/2 then ColumnType.date
    else ColumnType.string

/-- `countMissing` from `SummaryScreen.tsx`. -/
def countMissing (values : List String) : ℕ :=
  (values.filter (fun v => isEmptySS v)).length

/-- `countInvalid` from `SummaryScreen.tsx`: non-empty values failing
their column's expected type (string columns never invalid). -/
def countInvalid (values : List String) (expected : ColumnType) : ℕ :=
  (values.filter (fun v =>
    !isEmptySS v &&
      match expected with
      | ColumnType.number => !(tryParseNumber v).1
      | ColumnType.date => !tryParseDateOk v
      | ColumnType.string => false)).length

/-- `JSON.stringify` of a cell value.  String escaping of embedded
quotes is not modelled (no claim feeds quote-bearing strings through
it); the encoding is injective on the cells in scope. -/
def jsonCell : Cell → String
  | Cell.num q => qToString q
  | Cell.str s => "\"" ++ s ++ "\""
  | Cell.null => "null"

/-- `JSON.stringify` of a row object (keys in insertion order). -/
def jsonRowString (r : DataRow) : String :=
  "\x7b" ++ String.intercalate "," (r.map (fun p => "\"" ++ p.1 ++ "\":" ++ jsonCell p.2)) ++ "\x7d"

/-- The seen-set loop of `estimateDuplicates`. -/
def estimateDuplicatesAux : List DataRow → List String → ℕ → ℕ
  | [], _, dup => dup
  | o :: rest, seen, dup =>
      let key := jsonRowString o
      if seen.contains key then estimateDuplicatesAux rest seen (dup + 1)
      else estimateDuplicatesAux rest (key :: seen) dup

/-- `estimateDuplicates` from `SummaryScreen.tsx`: count the rows whose
JSON signature has been seen before. -/
def estimateDuplicates (objects : List DataRow) : ℕ :=
  estimateDuplicatesAux objects [] 0

/-! ## Box plots and anomalies (`dataVisualization.ts`, `advancedAnalysis.ts`) -/

/-- Result of `generateBoxPlot`. -/
structure BoxPlot where
  min : ℚ
  q1 : ℚ
  median : ℚ
  q3 : ℚ
  max : ℚ
  outliers : List ℚ
deriving DecidableEq, Repr

/-- `generateBoxPlot` from `dataVisualization.ts`, over the finite
numeric values extracted from the column (the `typeof`/`parseFloat`
host coercion and `NaN` filter are the upstream extraction step).
Quartiles are the sorted values at `floor(n/4)` and `floor(3n/4)`,
fences at `1.5·IQR`, and outliers the values strictly beyond a fence. -/
def generateBoxPlot (values0 : List ℚ) : BoxPlot :=
  let values := values0.insertionSort (fun a b => a ≤ b)
  if values.isEmpty then
    { min := 0, q1 := 0, median := 0, q3 := 0, max := 0, outliers := [] }
  else
    let n := values.length
    let median :=
      if n % 2 = 0 then (values.getD (n / 2 - 1) 0 + values.getD (n / 2) 0) / 2
      else values.getD (n / 2) 0
    let q1 := values.getD (n / 4) 0
    let q3 := values.getD (n * 3 / 4) 0
    let iqr := q3 - q1
    let lowerBound := q1 - 3/2 * iqr
    let upperBound := q3 + 3/2 * iqr
    { min := values.getD 0 0
      q1 := q1
      median := median
      q3 := q3
      max := values.getD (n - 1) 0
      outliers := values.filter (fun v => v < lowerBound ∨ upperBound < v) }

/-- The IQR outlier selection of `detectAnomalies` from
`advancedAnalysis.ts` (lines 183–207), over the column's finite numeric
values in row order: quartiles at `floor(n·0.25)` / `floor(n·0.75)` of
the sorted values, fences at `threshold·IQR`, strict comparisons.  The
row-index/severity metadata attached to each flagged value is elided:
the claims concern only which values are flagged. -/
def detectAnomaliesOutliers (values : List ℚ) (threshold : ℚ) : List ℚ :=
  let sorted := values.insertionSort (fun a b => a ≤ b)
  let q1 := sorted.getD (sorted.length / 4) 0
  let q3 := sorted.getD (sorted.length * 3 / 4) 0
  let iqr := q3 - q1
  let lowerBound := q1 - threshold * iqr
  let upperBound := q3 + threshold * iqr
  values.filter (fun v => v < lowerBound ∨ upperBound < v)

/-! ## Drill-down and quality report (`src/utils/drillDown.ts`) -/

/-- Rendering of a JS number for template interpolation. -/
def jsValDisplay : JSVal → String
  | JSVal.fin q => qToString q
  | JSVal.posInf => "Infinity"
  | JSVal.negInf => "-Infinity"
  | JSVal.nan => "NaN"

/-- Result of `compareSegments` (modelled at `analyzeColumn` absent, so
the optional per-column mean/median/stdev statistics and their deltas
are all `undefined`; the row counts and their comparison are identical
in both modes). -/
structure SegmentComparison where
  segment1Name : String
  segment1RowCount : ℕ
  segment2Name : String
  segment2RowCount : ℕ
  rowCountDiff : ℚ
  rowCountDiffPercent : JSVal
  isDifferentSignificant : Bool
deriving DecidableEq, Repr

/-- `compareSegments` from `drillDown.ts`: filter the two segments by
strict equality on the selector column, then compare row counts; the
percent difference divides by the second segment's row count with no
emptiness guard. -/
def compareSegments (data : List DataRow) (column : String) (value1 value2 : Cell) :
    SegmentComparison :=
  let segment1Data := data.filter (fun row => rowGet row column = some value1)
  let segment2Data := data.filter (fun row => rowGet row column = some value2)
  let rowCountDiff : ℚ := (segment1Data.length : ℚ) - (segment2Data.length : ℚ)
  let rowCountDiffPercent :=
    JSVal.mul (JSVal.div (JSVal.fin rowCountDiff) (JSVal.fin (segment2Data.length : ℚ)))
      (JSVal.fin 100)
  { segment1Name := cellToString (some value1)
    segment1RowCount := segment1Data.length
    segment2Name := cellToString (some value2)
    segment2RowCount := segment2Data.length
    rowCountDiff := rowCountDiff
    rowCountDiffPercent :=
      JSVal.div (JSVal.round (JSVal.mul rowCountDiffPercent (JSVal.fin 100))) (JSVal.fin 100)
    isDifferentSignificant := JSVal.gtB (JSVal.abs rowCountDiffPercent) (JSVal.fin 10) }

/-- The cell test of the quality report's null count and type census:
`val === null || val === undefined || val === ''`. -/
def cellIsNullQR (v : Option Cell) : Bool :=
  v = none || v = some Cell.null || v = some (Cell.str "")

/-- `typeof val` for a cell passing the null test (`"number"` or
`"string"`). -/
def cellTypeName : Cell → String
  | Cell.num _ => "number"
  | Cell.str _ => "string"
  | Cell.null => "object"

/-- `Math.round(data.length * 0.7)` as a natural number. -/
def natRound70pct (n : ℕ) : ℕ := (⌊(n : ℚ) * (7/10) + 1/2⌋).toNat

/-- Result of `generateQualityReport`. -/
structure DataQualityReport where
  overallScore : JSVal
  completeness : JSVal
  uniqueness : JSVal
  validity : JSVal
  consistency : ℚ
  accuracy : ℚ
  timeliness : ℚ
  issues : List String
  recommendations : List String
deriving DecidableEq, Repr

/-- `generateQualityReport` from `drillDown.ts` (modelled at
`dataSummary` absent, so the outlier issue line never fires).  Headers
come from the first row's keys; completeness, uniqueness and validity
are integer-rounded percentages; a column counts as fully valid when it
exhibits at most one non-empty `typeof` type (`types.size <= 1`,
including the zero-type case of an all-empty column), and as 70% valid
otherwise; the overall score is the weighted sum plus the flat 10. -/
def generateQualityReport (data : List DataRow) : DataQualityReport :=
  if data.isEmpty then
    { overallScore := JSVal.fin 0, completeness := JSVal.fin 0, uniqueness := JSVal.fin 0
      validity := JSVal.fin 0, consistency := 100, accuracy := 100, timeliness := 100
      issues := ["No data to analyze"], recommendations := ["Upload a CSV file"] }
  else
    let headers := (data.headD []).map Prod.fst
    let totalCells := data.length * headers.length
    let nullCount := data.foldl (fun acc row =>
      acc + (headers.filter (fun h => cellIsNullQR (rowGet row h))).length) 0
    let completeness :=
      JSVal.round
        (JSVal.mul
          (JSVal.div (JSVal.fin ((totalCells : ℚ) - (nullCount : ℚ))) (JSVal.fin (totalCells : ℚ)))
          (JSVal.fin 100))
    let uniqueRowsSize := ((data.map jsonRowString).dedup).length
    let uniqueness :=
      JSVal.round
        (JSVal.mul (JSVal.div (JSVal.fin (uniqueRowsSize : ℚ)) (JSVal.fin (data.length : ℚ)))
          (JSVal.fin 100))
    let validCells := headers.foldl (fun acc h =>
      let types :=
        ((data.filterMap (fun row =>
          let val := rowGet row h
          if cellIsNullQR val then none
          else val.map cellTypeName)).dedup)
      if types.length ≤ 1 then acc + data.length else acc + natRound70pct data.length) 0
    let validity :=
      JSVal.round
        (JSVal.mul (JSVal.div (JSVal.fin (validCells : ℚ)) (JSVal.fin (totalCells : ℚ)))
          (JSVal.fin 100))
    let overallScore :=
      JSVal.round
        (JSVal.add
          (JSVal.add
            (JSVal.add (JSVal.mul completeness (JSVal.fin (2/5)))
              (JSVal.mul uniqueness (JSVal.fin (3/10))))
            (JSVal.mul validity (JSVal.fin (1/5))))
          (JSVal.fin 10))
    let issues :=
      (if JSVal.ltB completeness (JSVal.fin 80) then
        ["Low completeness (" ++ jsValDisplay completeness ++ "%) - " ++ Nat.repr nullCount ++
          " missing values found"]
      else []) ++
      (if JSVal.ltB uniqueness (JSVal.fin 95) then
        [Nat.repr (data.length - uniqueRowsSize) ++ " duplicate rows detected"]
      else []) ++
      (if JSVal.ltB validity (JSVal.fin 85) then
        ["Some columns have inconsistent data types"]
      else [])
    let recommendations :=
      (if JSVal.ltB completeness (JSVal.fin 80) then
        ["Fill missing values with appropriate strategies"] else []) ++
      (if JSVal.ltB uniqueness (JSVal.fin 95) then
        ["Remove duplicate rows to improve data quality"] else []) ++
      (if JSVal.ltB validity (JSVal.fin 85) then
        ["Review and correct invalid type entries"] else []) ++
      (if issues.isEmpty then ["Data quality is excellent - ready for analysis"] else [])
    { overallScore := overallScore, completeness := completeness, uniqueness := uniqueness
      validity := validity, consistency := 100, accuracy := 100, timeliness := 100
      issues := issues, recommendations := recommendations }

/-- C8's claim-side restatement of the type-inference decision, with
the 0.85/0.5 thresholds as integer inequalities (`numOk/n ≥ 17/20` iff
`17·n ≤ 20·numOk`, etc.): sample the first 40 non-empty values;
`number` when at least 85% of the sample parses numerically; else
`date` when at least 85% parses as dates and under half numerically;
else `string` (in particular for an all-empty column). -/
def inferTypeClaim (values : List String) : ColumnType :=
  let sample := (values.filter (fun v => !isEmptySS v)).take 40
  let n := sample.length
  let numOk := (sample.filter (fun v => (tryParseNumber v).1)).length
  let dateOk := (sample.filter (fun v => tryParseDateOk v)).length
  if n = 0 then ColumnType.string
  else if 17 * n ≤ 20 * numOk then ColumnType.number
  else if 17 * n ≤ 20 * dateOk ∧ 2 * numOk < n then ColumnType.date
  else ColumnType.string

/-! ## Concrete datasets used by witnesses and counterexamples -/

/-- The §8 "concrete scenario 3" customer column:
`"Mike Smith"`, `"Mikela Jones"`, `"mike brown"`. -/
def mikeRows : List DataRow :=
  [[("Customer Name", Cell.str "Mike Smith")],
   [("Customer Name", Cell.str "Mikela Jones")],
   [("Customer Name", Cell.str "mike brown")]]

/-- A single-column dataset with two identical all-empty-string rows
(the zero-type validity corner of the quality report). -/
def emptyStrRows : List DataRow :=
  [[("a", Cell.str "")], [("a", Cell.str "")]]

/-! ## NaN/Infinity propagation lemmas -/

namespace JSVal

@[simp] theorem add_nan (x : JSVal) : add x nan = nan := by cases x <;> rfl
@[simp] theorem nan_add (x : JSVal) : add nan x = nan := by cases x <;> rfl
@[simp] theorem neg_nan : neg nan = nan := rfl
@[simp] theorem sub_nan (x : JSVal) : sub x nan = nan := by cases x <;> rfl
@[simp] theorem nan_sub (x : JSVal) : sub nan x = nan := by cases x <;> rfl
@[simp] theorem mul_nan (x : JSVal) : mul x nan = nan := by cases x <;> rfl
@[simp] theorem nan_mul (x : JSVal) : mul nan x = nan := by cases x <;> rfl
@[simp] theorem div_nan (x : JSVal) : div x nan = nan := by cases x <;> rfl
@[simp] theorem nan_div (x : JSVal) : div nan x = nan := by cases x <;> rfl
@[simp] theorem abs_nan : abs nan = nan := rfl
@[simp] theorem round_nan : round nan = nan := rfl
@[simp] theorem sqrtV_nan : sqrtV nan = nan := rfl
@[simp] theorem pow2_nan : pow2 nan = nan := rfl
@[simp] theorem maxV_nan (x : JSVal) : maxV x nan = nan := by cases x <;> rfl
@[simp] theorem nan_maxV (x : JSVal) : maxV nan x = nan := by cases x <;> rfl
@[simp] theorem minV_nan (x : JSVal) : minV x nan = nan := by cases x <;> rfl
@[simp] theorem nan_minV (x : JSVal) : minV nan x = nan := by cases x <;> rfl
@[simp] theorem expV_nan : expV nan = nan := rfl
@[simp] theorem logV_nan : logV nan = nan := rfl
@[simp] theorem ltB_nan (x : JSVal) : ltB x nan = false := by cases x <;> rfl
@[simp] theorem nan_ltB (x : JSVal) : ltB nan x = false := by cases x <;> rfl
@[simp] theorem eqB_nan (x : JSVal) : eqB x nan = false := by cases x <;> rfl
@[simp] theorem nan_eqB (x : JSVal) : eqB nan x = false := by cases x <;> rfl

end JSVal

/-- The invariant of the insertion-ordered counting map after
processing `l`: keys are distinct, the key set is the value set of `l`,
and every entry holds its key's occurrence count. -/
def CountsInv {α : Type} [DecidableEq α] (m : List (α × ℕ)) (l : List α) : Prop :=
  (m.map Prod.fst).Nodup ∧ (∀ x : α, x ∈ m.map Prod.fst ↔ x ∈ l) ∧
    ∀ p ∈ m, p.2 = l.count p.1

/-- C6's claim-side count of null cells. -/
def specNullCells (data : List DataRow) (headers : List String) : ℕ :=
  (data.map (fun row => headers.countP (fun h => cellIsNullQR (rowGet row h)))).sum

/-- C6's claim-side count of distinct non-empty `typeof` types present
in a column. -/
def specColumnTypeCount (data : List DataRow) (h : String) : ℕ :=
  ((data.filterMap (fun row =>
    let val := rowGet row h
    if cellIsNullQR val then none else val.map cellTypeName)).toFinset).card

/-- C6's claim-side overall quality score, with the claim's validity
rule taken literally: a column's rows all count as valid EXACTLY when
the column has exactly ONE non-empty `typeof` type present, and as 70%
of rows valid otherwise; completeness, uniqueness and validity are
integer-rounded percentages and the overall score is the
0.4/0.3/0.2 weighted sum plus the flat 10. -/
def qualityScoreClaim (data : List DataRow) : JSVal :=
  let headers := (data.headD []).map Prod.fst
  let totalCells := data.length * headers.length
  let completeness :=
    JSVal.round
      (JSVal.mul
        (JSVal.div (JSVal.fin ((totalCells : ℚ) - (specNullCells data headers : ℚ)))
          (JSVal.fin (totalCells : ℚ)))
        (JSVal.fin 100))
  let uniqueness :=
    JSVal.round
      (JSVal.mul
        (JSVal.div (JSVal.fin (((data.map jsonRowString).toFinset.card : ℚ)))
          (JSVal.fin (data.length : ℚ)))
        (JSVal.fin 100))
  let validCells :=
    (headers.map (fun h =>
      if specColumnTypeCount data h = 1 then data.length else natRound70pct data.length)).sum
  let validity :=
    JSVal.round
      (JSVal.mul (JSVal.div (JSVal.fin (validCells : ℚ)) (JSVal.fin (totalCells : ℚ)))
        (JSVal.fin 100))
  JSVal.round
    (JSVal.add
      (JSVal.add
        (JSVal.add (JSVal.mul completeness (JSVal.fin (2/5)))
          (JSVal.mul uniqueness (JSVal.fin (3/10))))
        (JSVal.mul validity (JSVal.fin (1/5))))
      (JSVal.fin 10))

/-- C6's amended claim-side overall quality score: identical to
`qualityScoreClaim` except that a column's rows all count as valid when
the column has AT MOST one non-empty `typeof` type present (one type,
or none at all — the all-empty column), matching the source's
`types.size <= 1` test. -/
def qualityScoreAmended (data : List DataRow) : JSVal :=
  let headers := (data.headD []).map Prod.fst
  let totalCells := data.length * headers.length
  let completeness :=
    JSVal.round
      (JSVal.mul
        (JSVal.div (JSVal.fin ((totalCells : ℚ) - (specNullCells data headers : ℚ)))
          (JSVal.fin (totalCells : ℚ)))
        (JSVal.fin 100))
  let uniqueness :=
    JSVal.round
      (JSVal.mul
        (JSVal.div (JSVal.fin (((data.map jsonRowString).toFinset.card : ℚ)))
          (JSVal.fin (data.length : ℚ)))
        (JSVal.fin 100))
  let validCells :=
    (headers.map (fun h =>
      if specColumnTypeCount data h ≤ 1 then data.length else natRound70pct data.length)).sum
  let validity :=
    JSVal.round
      (JSVal.mul (JSVal.div (JSVal.fin (validCells : ℚ)) (JSVal.fin (totalCells : ℚ)))
        (JSVal.fin 100))
  JSVal.round
    (JSVal.add
      (JSVal.add
        (JSVal.add (JSVal.mul completeness (JSVal.fin (2/5)))
          (JSVal.mul uniqueness (JSVal.fin (3/10))))
        (JSVal.mul validity (JSVal.fin (1/5))))
      (JSVal.fin 10))

/-! ## Theorems settling the claims -/

set_option maxRecDepth 100000 in
set_option maxHeartbeats 4000000 in
/-- C4 counterexample: with a singleton first group — fewer than 2–3
values — `tTest([5], [1,2,3])` does NOT short-circuit to the
"insufficient data" sentinel: the singleton group's sample variance is
`0/0 = NaN`, the returned `tStatistic` and `pValue` are `NaN`, and the
interpretation is the ordinary "no significant difference" text.  This
refutes the claim that every group with fewer than 2–3 values
short-circuits and that `NaN` is never returned. -/
theorem tTest_singleton_group_nan :
    (tTest [5] [1, 2, 3]).tStatistic = JSVal.nan ∧
    (tTest [5] [1, 2, 3]).pValue = JSVal.nan ∧
    (tTest [5] [1, 2, 3]).interpretation = "No significant difference (p > 0.05)" ∧
    tTest [5] [1, 2, 3] ≠ tTestSentinel := by
  norm_num [tTest, tTestSentinel, tCDF, betaIncomplete, betaIncLoop, betaIncStep, logBeta,
    logGamma, logGammaPos, JSVal.add, JSVal.sub, JSVal.neg, JSVal.mul, JSVal.div, JSVal.abs,
    JSVal.ltB, JSVal.gtB, JSVal.eqB, JSVal.round, JSVal.maxV, JSVal.minV, JSVal.sqrtV,
    JSVal.pow2, JSVal.logV, JSVal.expV, JSVal.sinV, mathPI, jsOfOpt]

/-- C4 (amended): `tTest` short-circuits to the neutral sentinel
(`tStatistic 0`, `pValue 1`, `significant false`, interpretation
"Insufficient data") exactly on the guard the code actually has: when
either input group is empty; in particular `tTest([], [1,2,3])` returns
the sentinel. -/
theorem tTest_insufficient_data (group1 group2 : List ℚ)
    (h : group1 = [] ∨ group2 = []) : tTest group1 group2 = tTestSentinel := by
  rcases h with h | h <;> subst h <;> simp [tTest]

/-- C4 witness: the amended theorem applied at `tTest([], [1,2,3])`. -/
theorem tTest_insufficient_data_witness : tTest [] [1, 2, 3] = tTestSentinel :=
  tTest_insufficient_data [] [1, 2, 3] (Or.inl rfl)

/-- C9: `confidenceInterval` uses `z = 1.96` only for sample sizes above
30; otherwise it looks the critical value up in `tValueFromDF`, whose
table covers exactly `df ∈ {1,2,3,4,5,10,20,30}` (the normal
approximation and fallback after the lookup's `return` are dead code);
for every sample of size 3..31 whose `df = n − 1` is untabulated the
lookup returns `undefined`, and the margin of error and both bounds come
out `NaN` (not well-defined numbers). -/
theorem confidenceInterval_partial_table :
    (∀ df : ℕ, (tValueFromDF df).isSome ↔
      df = 1 ∨ df = 2 ∨ df = 3 ∨ df = 4 ∨ df = 5 ∨ df = 10 ∨ df = 20 ∨ df = 30)
  ∧ (∀ n : ℕ, 30 < n → ciTValue n = JSVal.fin (196/100))
  ∧ ∀ data : List ℚ, 3 ≤ data.length → data.length ≤ 31 →
      tValueFromDF (data.length - 1) = none →
      (confidenceInterval data).marginOfError = JSVal.nan ∧
      (confidenceInterval data).lowerBound = JSVal.nan ∧
      (confidenceInterval data).upperBound = JSVal.nan := by
  refine ⟨?_, ?_, ?_⟩
  · intro df
    unfold tValueFromDF
    split_ifs <;> simp_all
  · intro n h
    simp [ciTValue, h]
  · intro data h3 h31 hnone
    have hn2 : ¬ data.length < 2 := by omega
    have hle : ¬ data.length > 30 := by
      by_contra hgt
      have h31' : data.length = 31 := by omega
      rw [h31'] at hnone
      simp [tValueFromDF] at hnone
    simp [confidenceInterval, hn2, ciTValue, hle, hnone, jsOfOpt]

/-- C9 witness: a 7-element sample (`df = 6`, untabulated) yields a
`NaN` margin of error, and a 31-element sample is the first to use
`z = 1.96`. -/
theorem confidenceInterval_partial_table_witness :
    (confidenceInterval [1, 2, 3, 4, 5, 6, 7]).marginOfError = JSVal.nan ∧
    ciTValue 31 = JSVal.fin (196/100) :=
  ⟨(confidenceInterval_partial_table.2.2 [1, 2, 3, 4, 5, 6, 7] (by norm_num) (by norm_num)
      (by decide)).1,
   confidenceInterval_partial_table.2.1 31 (by norm_num)⟩

/-- C10: `compareSegments` divides by the second segment's row count
with no emptiness guard: when the second selector matches no rows,
`rowCountDiffPercent` is `+Infinity` (first segment non-empty, and the
significance flag derived from it is `true`) or `NaN` (both segments
empty, flag `false`) — never a finite number. -/
theorem compareSegments_empty_segment2 (data : List DataRow) (column : String) (v1 v2 : Cell)
    (h2 : (data.filter (fun row => rowGet row column = some v2)).length = 0) :
    (0 < (data.filter (fun row => rowGet row column = some v1)).length →
      (compareSegments data column v1 v2).rowCountDiffPercent = JSVal.posInf ∧
      (compareSegments data column v1 v2).isDifferentSignificant = true)
  ∧ ((data.filter (fun row => rowGet row column = some v1)).length = 0 →
      (compareSegments data column v1 v2).rowCountDiffPercent = JSVal.nan ∧
      (compareSegments data column v1 v2).isDifferentSignificant = false) := by
  constructor
  · intro h1
    have hq : (0 : ℚ) < ((data.filter (fun row => rowGet row column = some v1)).length : ℚ) := by
      exact_mod_cast h1
    simp [compareSegments, h2, JSVal.div, JSVal.mul, JSVal.abs, JSVal.gtB, JSVal.ltB,
      JSVal.round, hq, hq.ne']
  · intro h1
    simp [compareSegments, h2, h1, JSVal.div, JSVal.mul, JSVal.abs, JSVal.gtB, JSVal.ltB,
      JSVal.round]

/-- C10 witness: one row matching the first selector and none matching
the second gives `+Infinity` and a `true` significance flag. -/
theorem compareSegments_empty_segment2_witness :
    (compareSegments [[("c", Cell.str "x")]] "c" (Cell.str "x") (Cell.str "y")).rowCountDiffPercent
        = JSVal.posInf ∧
    (compareSegments [[("c", Cell.str "x")]] "c" (Cell.str "x")
        (Cell.str "y")).isDifferentSignificant = true :=
  (compareSegments_empty_segment2 [[("c", Cell.str "x")]] "c" (Cell.str "x") (Cell.str "y")
      (by decide)).1 (by decide)

/-- C3 counterexample: the Schema Inferencer's `tryParseNumber` strips
only commas, not currency symbols: `"$1,234.56"` fails its numeric
parse (it keeps the `$`, and `Number("$1234.56")` is `NaN`), so in a
numeric column that cell IS counted invalid — refuting the part of the
claim that says the Schema Inferencer also strips `$` and that
`"$1,234.56"` parses successfully. -/
theorem tryParseNumber_dollar_not_ok :
    (tryParseNumber "$1,234.56").1 = false ∧ countInvalid ["$1,234.56"] ColumnType.number = 1 := by
  decide

/-- C3 (amended): the Schema Inferencer's numeric parse strips
thousands-separator commas only, and succeeds iff the result is finite:
`"1,234.56"` parses to `1234.56` and is not counted invalid.  Stripping
of the `$` currency symbol happens only in the query layer's
`toNumberSafe`, which parses `"$1,234.56"` to `1234.56`. -/
theorem numeric_parse_comma_stripping :
    tryParseNumber "1,234.56" = (true, some (123456/100))
  ∧ countInvalid ["1,234.56"] ColumnType.number = 0
  ∧ toNumberSafe (some (Cell.str "$1,234.56")) = some (123456/100) := by
  have h3 : jsNumberFinite "1234.56" =
      some ((((1234 : ℕ) : ℚ) + ((56 : ℕ) : ℚ) / (10 : ℚ) ^ (2 : ℕ)) * (10 : ℚ) ^ (0 : ℤ)) := rfl
  refine ⟨?_, by decide, ?_⟩
  · have h2 : isEmptySS "1,234.56" = false := by decide
    have h1 : (⟨(jsTrim "1,234.56").toList.filter (fun c => c ≠ ',')⟩ : String) = "1234.56" := by
      decide
    simp only [tryParseNumber, h2, Bool.false_eq_true, if_false, h1, h3]
    norm_num
  · have h1 : (⟨(jsTrim (cellToString (some (Cell.str "$1,234.56")))).toList.filter
        (fun ch => ch ≠ '$' ∧ ch ≠ ',')⟩ : String) = "1234.56" := by decide
    have h2 : (jsTrim (cellToString (some (Cell.str "$1,234.56"))) = "") = False := by
      simp only [eq_iff_iff, iff_false]
      decide
    simp only [toNumberSafe, h2, if_false, h1, h3]
    norm_num

set_option maxHeartbeats 1000000 in
/-- C5: IQR outlier detection uses strict fence comparisons: a value is
flagged iff it lies strictly below `Q1 − 1.5·IQR` or strictly above
`Q3 + 1.5·IQR` (so a value exactly on a fence is NOT flagged), with
`Q1`/`Q3` the sorted values at `floor(n·0.25)`/`floor(n·0.75)`; for the
column values `[10, 12, 11, 13, 1000]` both detectors flag exactly
`{1000}`. -/
theorem iqr_outlier_strict_fences :
    (∀ (values : List ℚ) (v : ℚ),
      v ∈ (generateBoxPlot values).outliers ↔
        v ∈ values ∧
          (v < (generateBoxPlot values).q1 -
              3/2 * ((generateBoxPlot values).q3 - (generateBoxPlot values).q1) ∨
            (generateBoxPlot values).q3 +
              3/2 * ((generateBoxPlot values).q3 - (generateBoxPlot values).q1) < v))
  ∧ (generateBoxPlot [10, 12, 11, 13, 1000]).outliers = [1000]
  ∧ detectAnomaliesOutliers [10, 12, 11, 13, 1000] (3/2) = [1000] := by
  refine ⟨?_, ?_, ?_⟩
  · intro values v
    simp only [generateBoxPlot]
    split
    · next h =>
      have hnil : values = [] := by
        have hperm := List.perm_insertionSort (fun a b : ℚ => a ≤ b) values
        rw [List.isEmpty_iff] at h
        rw [h] at hperm
        exact (List.Perm.nil_eq hperm).symm
      simp [hnil]
    · next h =>
      simp only [List.mem_filter, List.mem_insertionSort, decide_eq_true_eq]
  · norm_num [generateBoxPlot, List.insertionSort, List.orderedInsert]
  · norm_num [detectAnomaliesOutliers, List.insertionSort, List.orderedInsert]

/-- Threshold conversion: `a/n ≥ 0.85` iff `17·n ≤ 20·a` (n positive). -/
theorem ratio_ge_85 (a n : ℕ) (hn : 0 < n) :
    ((17/20 : ℚ) ≤ (a : ℚ) / (n : ℚ)) ↔ 17 * n ≤ 20 * a := by
  rw [div_le_div_iff₀ (by norm_num) (by exact_mod_cast hn)]
  rw [show (17 : ℚ) * n = ((17 * n : ℕ) : ℚ) by push_cast; ring,
      show (a : ℚ) * 20 = ((20 * a : ℕ) : ℚ) by push_cast; ring]
  exact Nat.cast_le

/-- Threshold conversion: `a/n < 0.5` iff `2·a < n` (n positive). -/
theorem ratio_lt_half (a n : ℕ) (hn : 0 < n) :
    ((a : ℚ) / (n : ℚ) < 1/2) ↔ 2 * a < n := by
  rw [div_lt_div_iff₀ (by exact_mod_cast hn) (by norm_num)]
  rw [show (a : ℚ) * 2 = ((2 * a : ℕ) : ℚ) by push_cast; ring,
      show (1 : ℚ) * n = ((n : ℕ) : ℚ) by norm_num]
  exact Nat.cast_lt

/-- C8: `inferType` samples at most the first 40 non-empty values and
decides exactly as the claim describes: `number` iff the numeric
fraction of the sample is ≥ 0.85; else `date` iff the date fraction is
≥ 0.85 and the numeric fraction is < 0.5; else `string`, with an
all-empty column inferred as `string` (`inferTypeClaim` is that
decision, with the threshold comparisons as integer inequalities). -/
theorem inferType_decision (values : List String) :
    inferType values = inferTypeClaim values := by
  simp only [inferType, inferTypeClaim]
  by_cases hs : (values.filter (fun v => !isEmptySS v)).take 40 = []
  · simp [hs]
  · have hn : 0 < ((values.filter (fun v => !isEmptySS v)).take 40).length :=
      List.length_pos.mpr hs
    simp only [List.isEmpty_iff, hs, if_false, Nat.pos_iff_ne_zero.mp hn,
      ratio_ge_85 _ _ hn, ratio_lt_half _ _ hn]

theorem foldl_add_sub {β : Type} (m : List (β × ℕ)) (s : ℕ) :
    m.foldl (fun acc p => acc + (p.2 - 1)) s = s + (m.map (fun p => p.2 - 1)).sum := by
  induction m generalizing s with
  | nil => simp
  | cons p m ih => simp [ih, Nat.add_assoc]

theorem filter_gt_one_sub_sum {β : Type} (m : List (β × ℕ)) :
    ((m.filter (fun p => 1 < p.2)).map (fun p => p.2 - 1)).sum
      = (m.map (fun p => p.2 - 1)).sum := by
  induction m with
  | nil => simp
  | cons p m ih =>
      by_cases hp : 1 < p.2
      · simp [List.filter_cons, hp, ih]
      · have : p.2 - 1 = 0 := by omega
        simp [List.filter_cons, hp, ih, this]

theorem sub_one_sum {β : Type} (m : List (β × ℕ)) (h : ∀ p ∈ m, 1 ≤ p.2) :
    (m.map (fun p => p.2 - 1)).sum + m.length = (m.map Prod.snd).sum := by
  induction m with
  | nil => simp
  | cons p m ih =>
      have hp := h p (List.mem_cons_self p m)
      have hm := ih (fun q hq => h q (List.mem_cons_of_mem p hq))
      simp only [List.map_cons, List.sum_cons, List.length_cons]
      omega

section DuplicateCounting

variable {α : Type} [DecidableEq α]

theorem mem_keys_iff_any (m : List (α × ℕ)) (a : α) :
    (m.any (fun p => p.1 = a)) = true ↔ a ∈ m.map Prod.fst := by
  rw [List.any_eq_true]
  constructor
  · rintro ⟨p, hp, hpa⟩
    exact List.mem_map.mpr ⟨p, hp, by simpa using hpa⟩
  · intro h
    obtain ⟨p, hp, rfl⟩ := List.mem_map.mp h
    exact ⟨p, hp, by simp⟩

theorem countsInv_bump {m : List (α × ℕ)} {l : List α} (h : CountsInv m l) (a : α) :
    CountsInv (bumpCount m a) (l ++ [a]) := by
  obtain ⟨hnd, hmem, hcnt⟩ := h
  by_cases ha : a ∈ m.map Prod.fst
  · rw [bumpCount, if_pos ((mem_keys_iff_any m a).mpr ha)]
    have hkeys : (m.map (fun p => if p.1 = a then (p.1, p.2 + 1) else p)).map Prod.fst
        = m.map Prod.fst := by
      rw [List.map_map]
      apply List.map_congr_left
      intro p _
      by_cases hp : p.1 = a <;> simp [hp]
    refine ⟨by rw [hkeys]; exact hnd, ?_, ?_⟩
    · intro x
      rw [hkeys, List.mem_append, List.mem_singleton, hmem]
      constructor
      · exact Or.inl
      · rintro (hx | rfl)
        · exact hx
        · exact (hmem _).mp ha
    · intro p' hp'
      obtain ⟨p, hp, rfl⟩ := List.mem_map.mp hp'
      by_cases hpa : p.1 = a
      · simp only [hpa, if_pos rfl]
        rw [List.count_append, hcnt p hp, hpa]
        simp
      · simp only [if_neg hpa]
        rw [List.count_append, hcnt p hp]
        simp [hpa]
  · rw [bumpCount, if_neg (fun hc => ha ((mem_keys_iff_any m a).mp hc))]
    have hknot : ∀ p ∈ m, p.1 ≠ a := by
      intro p hp hcontra
      exact ha (List.mem_map.mpr ⟨p, hp, hcontra⟩)
    refine ⟨?_, ?_, ?_⟩
    · rw [List.map_append]
      rw [List.nodup_append]
      refine ⟨hnd, List.nodup_singleton a, ?_⟩
      intro x hx
      simp only [List.map_cons, List.map_nil, List.mem_singleton]
      intro hxa
      subst hxa
      exact ha hx
    · intro x
      rw [List.map_append, List.mem_append, List.mem_append]
      simp only [List.map_cons, List.map_nil, List.mem_singleton, hmem]
    · intro p' hp'
      rcases List.mem_append.mp hp' with hp | hp
      · rw [List.count_append, hcnt p' hp]
        simp [hknot p' hp]
      · rw [List.mem_singleton] at hp
        subst hp
        rw [List.count_append]
        have : a ∉ l := fun hc => ha ((hmem a).mpr hc)
        simp [List.count_eq_zero_of_not_mem this]

theorem countsList_inv (l : List α) : CountsInv (countsList l) l := by
  induction l using List.reverseRecOn with
  | nil => exact ⟨by simp [countsList], by simp [countsList], by simp [countsList]⟩
  | append_singleton l a ih =>
      have : countsList (l ++ [a]) = bumpCount (countsList l) a := by
        simp [countsList, List.foldl_append]
      rw [this]
      exact countsInv_bump ih a

theorem countsList_length (l : List α) : (countsList l).length = l.toFinset.card := by
  obtain ⟨hnd, hmem, -⟩ := countsList_inv l
  have h2 : ((countsList l).map Prod.fst).toFinset = l.toFinset := by
    ext x
    simp only [List.mem_toFinset, hmem x]
  calc (countsList l).length = ((countsList l).map Prod.fst).length := by rw [List.length_map]
    _ = ((countsList l).map Prod.fst).toFinset.card := (List.toFinset_card_of_nodup hnd).symm
    _ = l.toFinset.card := by rw [h2]

theorem countsList_snd_sum (l : List α) : ((countsList l).map Prod.snd).sum = l.length := by
  obtain ⟨hnd, hmem, hcnt⟩ := countsList_inv l
  have h2 : ((countsList l).map Prod.fst).toFinset = l.toFinset := by
    ext x
    simp only [List.mem_toFinset, hmem x]
  calc ((countsList l).map Prod.snd).sum
      = ((countsList l).map (fun p => l.count p.1)).sum := by
        exact congrArg _ (List.map_congr_left (fun p hp => hcnt p hp))
    _ = (((countsList l).map Prod.fst).map (fun k => l.count k)).sum := by
        rw [List.map_map]
        rfl
    _ = (((countsList l).map Prod.fst).toFinset).sum (fun k => l.count k) := by
        rw [List.sum_toFinset _ hnd]
    _ = ∑ k in l.toFinset, l.count k := by rw [h2]
    _ = l.length := List.sum_toFinset_count_eq_length l

theorem countsList_pos (l : List α) : ∀ p ∈ countsList l, 1 ≤ p.2 := by
  obtain ⟨-, hmem, hcnt⟩ := countsList_inv l
  intro p hp
  rw [hcnt p hp]
  have : p.1 ∈ l := (hmem p.1).mp (List.mem_map.mpr ⟨p, hp, rfl⟩)
  exact List.count_pos_iff.mpr this

/-- The duplicate count of the insertion-ordered counting map over `l`:
the sum of `count − 1` over the multi-occurring entries equals
`l.length − (number of distinct values of l)`. -/
theorem countsList_dup_count (l : List α) :
    ((countsList l).filter (fun p => 1 < p.2)).foldl (fun sum p => sum + (p.2 - 1)) 0
      + l.toFinset.card = l.length := by
  rw [foldl_add_sub, Nat.zero_add, filter_gt_one_sub_sum, ← countsList_length]
  rw [sub_one_sum _ (countsList_pos l), countsList_snd_sum]

end DuplicateCounting

theorem estimateDuplicatesAux_spec (l : List DataRow) :
    ∀ (seen : List String) (d : ℕ),
      estimateDuplicatesAux l seen d
          + (((l.map jsonRowString).toFinset) \ seen.toFinset).card = d + l.length := by
  induction l with
  | nil => intro seen d; simp [estimateDuplicatesAux]
  | cons o rest ih =>
      intro seen d
      by_cases hmem : seen.contains (jsonRowString o)
      · rw [estimateDuplicatesAux, if_pos hmem]
        have hseen : jsonRowString o ∈ seen.toFinset := by
          rw [List.mem_toFinset]
          simpa [List.contains_iff_exists_mem_beq, eq_comm] using hmem
        rw [List.map_cons, List.toFinset_cons, Finset.insert_sdiff_of_mem _ hseen]
        rw [ih seen (d + 1)]
        simp [List.length_cons]
        omega
      · rw [estimateDuplicatesAux, if_neg hmem]
        have hnotseen : jsonRowString o ∉ seen.toFinset := by
          rw [List.mem_toFinset]
          intro hc
          exact hmem (by simpa [List.contains_iff_exists_mem_beq, eq_comm] using hc)
        rw [List.map_cons, List.toFinset_cons,
          Finset.insert_sdiff_of_not_mem _ hnotseen]
        have heq := ih (jsonRowString o :: seen) d
        rw [List.toFinset_cons, Finset.sdiff_insert] at heq
        set S := (rest.map jsonRowString).toFinset \ seen.toFinset with hS
        have hcard : (insert (jsonRowString o) S).card = (S.erase (jsonRowString o)).card + 1 := by
          by_cases hin : jsonRowString o ∈ S
          · rw [Finset.insert_eq_self.mpr hin, Finset.card_erase_of_mem hin]
            have : 0 < S.card := Finset.card_pos.mpr ⟨_, hin⟩
            omega
          · rw [Finset.card_insert_of_not_mem hin, Finset.erase_eq_of_not_mem hin]
        rw [List.length_cons]
        omega

/-- C1: for every row set and header list, both duplicate detectors —
the query layer's `findDuplicateStats` (`"||"`-joined signatures) and
the profiler's `estimateDuplicates` (JSON signatures) — count exactly
`rows.length` minus the number of distinct row signatures, and that
value equals the sum over signatures occurring more than once of
`(occurrence count − 1)`. -/
theorem duplicate_count_invariant (rows : List DataRow) (headers : List String) :
    (findDuplicateStats rows headers).duplicateRowCount
        = rows.length - ((rows.map (fun r => buildRowSignature r headers)).toFinset).card
  ∧ estimateDuplicates rows = rows.length - ((rows.map jsonRowString).toFinset).card
  ∧ (findDuplicateStats rows headers).duplicateRowCount
        = ∑ s in ((rows.map (fun r => buildRowSignature r headers)).toFinset.filter
            (fun s => 1 < (rows.map (fun r => buildRowSignature r headers)).count s)),
            ((rows.map (fun r => buildRowSignature r headers)).count s - 1) := by
  set l := rows.map (fun r => buildRowSignature r headers) with hl
  have hlen : l.length = rows.length := by rw [hl, List.length_map]
  have hdup : (findDuplicateStats rows headers).duplicateRowCount + l.toFinset.card
      = rows.length := by
    rw [← hlen]
    exact countsList_dup_count l
  have hcard : l.toFinset.card ≤ l.length := by
    rw [List.card_toFinset]
    exact (List.dedup_sublist l).length_le
  have hest := estimateDuplicatesAux_spec rows [] 0
  simp only [List.toFinset_nil, Finset.sdiff_empty, Nat.zero_add] at hest
  have hestcard : ((rows.map jsonRowString).toFinset).card ≤ rows.length := by
    calc ((rows.map jsonRowString).toFinset).card ≤ (rows.map jsonRowString).length := by
          rw [List.card_toFinset]
          exact (List.dedup_sublist _).length_le
      _ = rows.length := List.length_map _ _
  refine ⟨by omega, by unfold estimateDuplicates; omega, ?_⟩
  have h3 : ∑ s in (l.toFinset.filter (fun s => 1 < l.count s)), (l.count s - 1)
      = ∑ s in l.toFinset, (l.count s - 1) := by
    apply Finset.sum_filter_of_ne
    intro s _ hne
    by_contra hc
    push_neg at hc
    omega
  have h4 : ∑ s in l.toFinset, l.count s
      = (∑ s in l.toFinset, (l.count s - 1)) + l.toFinset.card := by
    have hcongr : ∀ s ∈ l.toFinset, l.count s = (l.count s - 1) + 1 := by
      intro s hs
      have := List.count_pos_iff.mpr (List.mem_toFinset.mp hs)
      omega
    rw [Finset.sum_congr rfl hcongr, Finset.sum_add_distrib, Finset.sum_const, smul_eq_mul,
      mul_one]
  have h5 := List.sum_toFinset_count_eq_length l
  rw [h3]
  omega

set_option maxRecDepth 1000000 in
set_option maxHeartbeats 4000000 in
/-- C2: the question "how many mike are there" against a
`Customer Name` column holding `"Mike Smith"`, `"Mikela Jones"`,
`"mike brown"` is classified as `COUNT_NAME` and answered with a count
of exactly 2: the match is token-exact and case-insensitive, so
`"mike"` is a token of the normalized `"Mike Smith"` and `"mike brown"`
cells but not of `"Mikela Jones"`. -/
theorem count_name_mike_scenario :
    answerSalesQuestion "how many mike are there" mikeRows ["Customer Name"] =
      { text := "There are **2** rows where **Customer Name** contains the name **\"mike\"**."
        confidence := Confidence.high
        how := ["No filters applied.", "Rows considered: 3 (out of 3)",
                "Counted token matches in column: Customer Name"] }
  ∧ (parseQuestionToPlan "how many mike are there" ["Customer Name"]).intent = Intent.COUNT_NAME
  ∧ countNameInColumn mikeRows "Customer Name" "mike" = 2
  ∧ (jsSplitOn (jsToLower (stripPunct "Mike Smith")) " ").contains "mike" = true
  ∧ (jsSplitOn (jsToLower (stripPunct "mike brown")) " ").contains "mike" = true
  ∧ (jsSplitOn (jsToLower (stripPunct "Mikela Jones")) " ").contains "mike" = false := by
  decide

/-- C7 counterexample: with no rows (or no headers) the early return of
`answerSalesQuestion` carries an empty `how[]` trail — so it is not true
that EVERY input produces an answer with the filters-applied and
rows-considered entries. -/
theorem how_trail_empty_on_no_data :
    (answerSalesQuestion "how many rows are there" [] ["Customer Name"]).how = [] := by
  decide

/-- C7 (amended): for every call with a non-empty row list and
non-empty header list, the returned answer's `how[]` trail contains the
entry stating which filters were applied (or that none were) and the
entry stating how many rows were considered — across every intent and
every fallback branch. -/
theorem how_trail_present (question : String) (rows : List DataRow) (headers : List String)
    (hr : rows ≠ []) (hh : headers ≠ []) :
    filtersAppliedLine (parseQuestionToPlan question headers).filters
        ∈ (answerSalesQuestion question rows headers).how
    ∧ rowsConsideredLine
        (applyFilters rows (parseQuestionToPlan question headers).filters).length rows.length
        ∈ (answerSalesQuestion question rows headers).how := by
  unfold answerSalesQuestion
  rw [if_neg (by simp [List.isEmpty_iff, hr, hh])]
  rcases h : (parseQuestionToPlan question headers).intent <;>
    simp only [h] <;>
    (repeat' split) <;>
    simp [List.mem_append]

/-- C7 witness: the amended theorem applied at a one-row dataset and an
unclassifiable question. -/
theorem how_trail_present_witness :
    filtersAppliedLine (parseQuestionToPlan "hello" ["a"]).filters
        ∈ (answerSalesQuestion "hello" [[("a", Cell.str "1")]] ["a"]).how
    ∧ rowsConsideredLine
        (applyFilters [[("a", Cell.str "1")]] (parseQuestionToPlan "hello" ["a"]).filters).length
        [[("a", Cell.str "1")]].length
        ∈ (answerSalesQuestion "hello" [[("a", Cell.str "1")]] ["a"]).how :=
  how_trail_present "hello" [[("a", Cell.str "1")]] ["a"] (by simp) (by simp)

/-- Folding `acc + f x` over a list sums the mapped values. -/
theorem foldl_add_map {γ : Type} (l : List γ) (f : γ → ℕ) (s : ℕ) :
    l.foldl (fun acc x => acc + f x) s = s + (l.map f).sum := by
  induction l generalizing s with
  | nil => simp
  | cons x l ih => simp [ih, Nat.add_assoc]

/-- C6 (amended): for every non-empty row set, the quality report's
overall score equals the claim formula
`round(completeness·0.4 + uniqueness·0.3 + validity·0.2 + 10)` with
integer-rounded components, where validity counts a column's rows as
all valid exactly when the column has AT MOST one non-empty `typeof`
type present (exactly one, or none for an all-empty column), and as
`round(0.7·rows)` valid otherwise. -/
theorem quality_report_formula (data : List DataRow) (hd : data ≠ []) :
    (generateQualityReport data).overallScore = qualityScoreAmended data := by
  have hne : data.isEmpty = false := by simp [List.isEmpty_iff, hd]
  simp only [generateQualityReport, qualityScoreAmended, hne, Bool.false_eq_true, if_false]
  have hnull : List.foldl (fun acc row =>
      acc + (List.filter (fun h => cellIsNullQR (rowGet row h))
        (List.map Prod.fst (data.headD []))).length) 0 data
      = specNullCells data (List.map Prod.fst (data.headD [])) := by
    rw [foldl_add_map]
    simp [specNullCells, List.countP_eq_length_filter]
  have hvalid : List.foldl (fun acc h =>
      let types := (List.filterMap (fun row =>
        let val := rowGet row h
        if cellIsNullQR val = true then none else Option.map cellTypeName val) data).dedup
      if types.length ≤ 1 then acc + data.length else acc + natRound70pct data.length) 0
      (List.map Prod.fst (data.headD []))
      = (List.map (fun h =>
          if specColumnTypeCount data h ≤ 1 then data.length else natRound70pct data.length)
          (List.map Prod.fst (data.headD []))).sum := by
    have hstep : (fun (acc : ℕ) h =>
        let types := (List.filterMap (fun row =>
          let val := rowGet row h
          if cellIsNullQR val = true then none else Option.map cellTypeName val) data).dedup
        if types.length ≤ 1 then acc + data.length else acc + natRound70pct data.length)
        = fun (acc : ℕ) h =>
            acc + (if specColumnTypeCount data h ≤ 1 then data.length
              else natRound70pct data.length) := by
      funext acc h
      have hcard : specColumnTypeCount data h
          = (List.filterMap (fun row =>
              let val := rowGet row h
              if cellIsNullQR val = true then none else Option.map cellTypeName val)
              data).dedup.length := by
        simp only [specColumnTypeCount]
        exact List.card_toFinset _
      simp only [hcard]
      split <;> rfl
    rw [hstep, foldl_add_map, Nat.zero_add]
  rw [hnull, hvalid, List.card_toFinset]

/-- C6 witness: the amended formula applied at the concrete two-row
all-empty-string dataset (both sides evaluate to 45). -/
theorem quality_report_formula_witness :
    (generateQualityReport emptyStrRows).overallScore = qualityScoreAmended emptyStrRows :=
  quality_report_formula emptyStrRows (by decide)

set_option maxRecDepth 100000 in
set_option maxHeartbeats 2000000 in
/-- C6 counterexample: on a column whose cells are all empty strings the
source counts every row as valid (`types.size <= 1` covers the
zero-type case), but the claim's "exactly one type" rule would count
only 70%: on the two-row dataset the code's overall score is 45 while
the claim's formula gives 35. -/
theorem quality_score_zero_type_column :
    (generateQualityReport emptyStrRows).overallScore = JSVal.fin 45
  ∧ qualityScoreClaim emptyStrRows = JSVal.fin 35
  ∧ (generateQualityReport emptyStrRows).overallScore ≠ qualityScoreClaim emptyStrRows := by
  have h1 : (generateQualityReport emptyStrRows).overallScore = JSVal.fin 45 := by
    simp only [generateQualityReport, emptyStrRows, List.isEmpty_cons, Bool.false_eq_true,
      if_false]
    norm_num [cellIsNullQR, rowGet, cellTypeName, natRound70pct, jsonRowString, jsonCell,
      JSVal.round, JSVal.mul, JSVal.div, JSVal.add, List.dedup, List.pwFilter, List.find?]
  have h2 : qualityScoreClaim emptyStrRows = JSVal.fin 35 := by
    simp only [qualityScoreClaim, emptyStrRows, specNullCells, specColumnTypeCount]
    norm_num [cellIsNullQR, rowGet, cellTypeName, natRound70pct, jsonRowString, jsonCell,
      JSVal.round, JSVal.mul, JSVal.div, JSVal.add, List.dedup, List.pwFilter, List.find?,
      List.toFinset_cons, List.toFinset_nil, List.filterMap, List.countP, List.countP.go]
  refine ⟨h1, h2, ?_⟩
  rw [h1, h2]
  simp
